import Mathlib

set_option maxRecDepth 8000

/-!
Verification development for the Hackflight flight-controller core.

This file gives a shallow embedding, in Lean 4, of the parts of the source
that the specification's claims are about:

* the arming / failsafe record updates of `src/board.h`
  (`Board::readyToArm`, `Board::disarm`, `Board::attemptToArm`,
  `Board::updateFromReceiver`);
* the per-channel signal-loss / failsafe fallback logic of `src/receiver.h`
  (`Receiver::isPulseValid`, `Receiver::getFailValue`,
  `Receiver::rxfail_step_to_channel_value`,
  `Receiver::detectAndApplySignalLossBehaviour`);
* the MSP serial parser and reply serialization of `src/parser.hpp`;
* the receiver smoothing-filter pipeline of `src/receiver.h`
  (`rcSmoothingAccumulateSample`, `calcAutoSmoothingCutoff`,
  `setSmoothingFilterCutoffs`, `processSmoothingFilter`,
  `Receiver::getDemands`).

Machine integers are modelled as `Nat` / `Int` with explicit wrap-around
where the C arithmetic wraps; C `float` values are modelled exactly as `Rat`
where the source only performs field operations and comparisons, and as
`Real` in the smoothing-filter section, whose gain formula involves pi and
cube roots.  Conversions from floating point to unsigned integer types
truncate toward zero, as in C++ (conversions of out-of-range values are
undefined behaviour in C++ and are exercised by no theorem below).
-/

namespace HF

/-! ### Arming state machine (src/board.h)

The `Arming` data record itself lives in `arming.h`, which is not part of
the sources; its boolean fields are exactly those read and written by
`board.h` and listed in the specification's data model ("Arming record").
-/

/-- The arming record: booleans {isArmed, haveSignal, gotFailsafe,
throttleIsDown, switchOkay, angleOkay, gyroDoneCalibrating,
accDoneCalibrating}, per the data model and the uses in `board.h`. -/
structure ArmingData where
  isArmed : Bool
  haveSignal : Bool
  gotFailsafe : Bool
  throttleIsDown : Bool
  switchOkay : Bool
  angleOkay : Bool
  gyroDoneCalibrating : Bool
  accDoneCalibrating : Bool
  deriving DecidableEq, Repr

instance : Fintype ArmingData :=
  Fintype.ofEquiv (Bool × Bool × Bool × Bool × Bool × Bool × Bool × Bool)
    { toFun := fun p =>
        ⟨p.1, p.2.1, p.2.2.1, p.2.2.2.1, p.2.2.2.2.1, p.2.2.2.2.2.1,
          p.2.2.2.2.2.2.1, p.2.2.2.2.2.2.2⟩
      invFun := fun a =>
        ⟨a.isArmed, a.haveSignal, a.gotFailsafe, a.throttleIsDown,
          a.switchOkay, a.angleOkay, a.gyroDoneCalibrating,
          a.accDoneCalibrating⟩
      left_inv := fun _ => rfl
      right_inv := fun _ => rfl }

/-- Board-level arming state: the arming record plus the static
`_doNotRepeat` flag local to `Board::attemptToArm`. -/
structure BoardArmState where
  arming : ArmingData
  doNotRepeat : Bool
  deriving DecidableEq, Repr

instance : Fintype BoardArmState :=
  Fintype.ofEquiv (ArmingData × Bool)
    { toFun := fun p => ⟨p.1, p.2⟩
      invFun := fun s => ⟨s.arming, s.doNotRepeat⟩
      left_inv := fun _ => rfl
      right_inv := fun _ => rfl }

/-- `Board::readyToArm` (board.h lines 167-177). -/
def readyToArm (a : ArmingData) : Bool :=
  a.accDoneCalibrating && a.angleOkay && !a.gotFailsafe && a.haveSignal &&
    a.gyroDoneCalibrating && a.switchOkay && a.throttleIsDown

/-- `Board::disarm` (board.h lines 179-186); the ESC stop call has no
effect on the arming record. -/
def disarm (a : ArmingData) : ArmingData := { a with isArmed := false }

/-- `Board::attemptToArm` (board.h lines 188-218).  `escIsReady` stands for
the value of `m_esc->isReady(usec)`.  The two early `return` statements skip
the trailing `_doNotRepeat` update. -/
def attemptToArm (s : BoardArmState) (escIsReady aux1IsSet : Bool) :
    BoardArmState :=
  if aux1IsSet && readyToArm s.arming && s.arming.isArmed then s
  else if aux1IsSet && readyToArm s.arming && !s.arming.isArmed && !escIsReady
    then s
  else
    let a :=
      if aux1IsSet then
        if readyToArm s.arming then { s.arming with isArmed := true }
        else s.arming
      else if s.arming.isArmed then { disarm s.arming with isArmed := false }
      else s.arming
    let dnr :=
      if !(a.isArmed || s.doNotRepeat || !readyToArm a) then true
      else s.doNotRepeat
    { arming := a, doNotRepeat := dnr }

/-- `Board::updateFromReceiver` (board.h lines 264-297); the LED and
warning calls have no effect on the arming record. -/
def updateFromReceiver (a : ArmingData)
    (throttleIsDown aux1IsSet haveSignal : Bool) : ArmingData :=
  let a1 :=
    if a.isArmed then
      if !haveSignal && a.haveSignal then disarm { a with gotFailsafe := true }
      else a
    else
      let aT := { a with throttleIsDown := throttleIsDown }
      if !readyToArm aT && aux1IsSet then { aT with switchOkay := false }
      else if !aux1IsSet then { aT with switchOkay := true }
      else aT
  { a1 with haveSignal := haveSignal }

/-- One receiver-driven update of the arming state, per
`Board::updateArmingFromReceiver` (board.h lines 244-262): in receiver
state `STATE_UPDATE` the board calls `attemptToArm`, in `STATE_CHECK` it
calls `updateFromReceiver`. -/
inductive RxEvent where
  | update (escIsReady aux1IsSet : Bool)
  | check (throttleIsDown aux1IsSet haveSignal : Bool)
  deriving DecidableEq, Repr

instance : Fintype RxEvent :=
  Fintype.ofEquiv ((Bool × Bool) ⊕ (Bool × Bool × Bool))
    { toFun := fun p =>
        match p with
        | .inl q => .update q.1 q.2
        | .inr q => .check q.1 q.2.1 q.2.2
      invFun := fun e =>
        match e with
        | .update a b => .inl (a, b)
        | .check a b c => .inr (a, b, c)
      left_inv := fun p => by cases p <;> rfl
      right_inv := fun e => by cases e <;> rfl }

/-- The arm-switch (aux1) value carried by a receiver event. -/
def eventAux1 : RxEvent → Bool
  | .update _ aux1IsSet => aux1IsSet
  | .check _ aux1IsSet _ => aux1IsSet

/-- One step of the board's arming state under a receiver event. -/
def armStep (s : BoardArmState) : RxEvent → BoardArmState
  | .update escIsReady aux1IsSet => attemptToArm s escIsReady aux1IsSet
  | .check throttleIsDown aux1IsSet haveSignal =>
      { s with
        arming := updateFromReceiver s.arming throttleIsDown aux1IsSet
          haveSignal }

/-- Run a sequence of receiver events. -/
def armRun (s : BoardArmState) (es : List RxEvent) : BoardArmState :=
  es.foldl armStep s

/-- Cold-boot arming state: all booleans false ("State reset / boot: on
cold boot, all booleans false"). -/
def bootArmState : BoardArmState :=
  ⟨⟨false, false, false, false, false, false, false, false⟩, false⟩

/-! ### Channel failsafe fallback (src/receiver.h)

Channel samples are C `float`s, modelled as `Rat`.  The channel index
constants come from `datatypes.h`, which is not among the sources; the
specification's data model fixes the slot order ("the first four slots are
throttle, roll, pitch, yaw; slot 4 is the arm switch (aux1); slot 5 is
aux2"), and the loop `for (axis=ROLL; axis<=YAW; ...)` over `m_command[4]`
in `receiver.h` agrees with it.
-/

/-- Modelled from the spec: channel slot 0 (`datatypes.h` is missing). -/
def THROTTLE : ℕ := 0

/-- Modelled from the spec: channel slot 1 (`datatypes.h` is missing). -/
def ROLL : ℕ := 1

/-- Modelled from the spec: channel slot 2 (`datatypes.h` is missing). -/
def PITCH : ℕ := 2

/-- Modelled from the spec: channel slot 3 (`datatypes.h` is missing). -/
def YAW : ℕ := 3

/-- C++ conversion of a nonnegative `float` to `uint16_t`: truncation
toward zero (conversion of a negative or too-large value is undefined
behaviour and is exercised nowhere below). -/
def floatToU16 (q : ℚ) : ℕ := (⌊q⌋).toNat

/-- `Receiver::rxfail_step_to_channel_value` (receiver.h lines 128-131):
`PWM_PULSE_MIN + 25 * step` with `PWM_PULSE_MIN = 750`, returned as
`uint8_t`, hence reduced mod 256. -/
def rxfail_step_to_channel_value (step : ℕ) : ℕ := (750 + 25 * step) % 256

/-- The hard-coded per-channel failsafe mode built inside
`Receiver::getFailValue` (receiver.h lines 248-257): mode 0 (AUTO) for
channels 0-3, mode 1 (HOLD) for channels 4-17. -/
def failsafeChannelMode (channel : ℕ) : ℕ := if channel < 4 then 0 else 1

/-- The hard-coded per-channel failsafe step built inside
`Receiver::getFailValue`: 30 everywhere except step 5 for channel 3. -/
def failsafeChannelStep (channel : ℕ) : ℕ := if channel = 3 then 5 else 30

/-- `Receiver::getFailValue` (receiver.h lines 244-276).  The switch on
the channel's mode: AUTO (0) yields 1500 for roll/pitch/yaw and 885
otherwise; INVALID (3) and HOLD (1) return `rcData[channel]` (a `float`
truncated through the `uint16_t` return type); SET (2) returns
`rxfail_step_to_channel_value(step)`; the fall-through returns 0. -/
def getFailValue (rcData : ℕ → ℚ) (channel : ℕ) : ℕ :=
  let mode := failsafeChannelMode channel
  if mode = 0 then
    if channel = ROLL ∨ channel = PITCH ∨ channel = YAW then 1500 else 885
  else if mode = 3 ∨ mode = 1 then floatToU16 (rcData channel)
  else if mode = 2 then rxfail_step_to_channel_value (failsafeChannelStep channel)
  else 0

/-- `Receiver::isPulseValid` (receiver.h lines 133-136); the parameter is
`uint16_t`, so the caller's `float` sample is truncated first. -/
def isPulseValid (pulseDuration : ℕ) : Bool :=
  885 ≤ pulseDuration && pulseDuration ≤ 2115

/-- `Receiver::cmp32` (receiver.h lines 123-126): `(int32_t)(a-b)` on
`uint32_t` arguments. -/
def cmp32 (a b : ℕ) : ℤ :=
  let d := ((a : ℤ) - b) % 4294967296
  if d < 2147483648 then d else d - 4294967296

/-- `MAX_INVALID__PULSE_TIME` (receiver.h line 86), in milliseconds. -/
def MAX_INVALID__PULSE_TIME : ℕ := 300

/-- The receiver state read and written by
`Receiver::detectAndApplySignalLossBehaviour`. -/
structure SignalLossState where
  signalReceived : Bool
  inFailsafeMode : Bool
  invalidPulsePeriod : ℕ → ℕ

/-- The body of the first per-channel loop of
`Receiver::detectAndApplySignalLossBehaviour` (receiver.h lines 345-371)
for one channel: returns the channel's new value, its new
`m_invalidPulsePeriod` entry, and whether the fallback branch ran (which
clears `flightChannelsValid` when the channel index is below 4).  Each
iteration of the source loop reads and writes only index `channel` of the
arrays, so the loop is this function applied pointwise. -/
def detectCh (useValueFromRx : Bool) (currentTimeMs : ℕ) (raw : ℕ → ℚ)
    (ipp : ℕ → ℕ) (channel : ℕ) : ℚ × ℕ × Bool :=
  let sample := raw channel
  let validPulse := useValueFromRx && isPulseValid (floatToU16 sample)
  if validPulse then
    (sample, (currentTimeMs + MAX_INVALID__PULSE_TIME) % 4294967296, false)
  else if cmp32 currentTimeMs (ipp channel) < 0 then
    (sample, ipp channel, false)
  else
    ((getFailValue raw channel : ℚ), ipp channel, true)

/-- `Receiver::detectAndApplySignalLossBehaviour` (receiver.h lines
333-382).  Returns the new channel array, the new state, and `true` when
`failsafe->onValidDataReceived` was signalled (`false` for
`onValidDataFailed`).  The second loop (all channels forced to their fail
values when a flight channel was not recovered) also reads only index
`channel` of the array per iteration. -/
def detectAndApplySignalLossBehaviour (s : SignalLossState)
    (currentTimeUs : ℕ) (raw : ℕ → ℚ) : (ℕ → ℚ) × SignalLossState × Bool :=
  let currentTimeMs := currentTimeUs / 1000
  let useValueFromRx := s.signalReceived && !s.inFailsafeMode
  let step := fun ch =>
    detectCh useValueFromRx currentTimeMs raw s.invalidPulsePeriod ch
  let raw1 : ℕ → ℚ := fun ch => if ch < 18 then (step ch).1 else raw ch
  let ipp1 : ℕ → ℕ :=
    fun ch => if ch < 18 then (step ch).2.1 else s.invalidPulsePeriod ch
  let flightChannelsValid :=
    (List.range 18).all fun ch => !((step ch).2.2 && decide (ch < 4))
  if flightChannelsValid then
    (raw1, { s with invalidPulsePeriod := ipp1 }, true)
  else
    (fun ch => if ch < 18 then ((getFailValue raw1 ch : ℕ) : ℚ) else raw1 ch,
      { s with
        invalidPulsePeriod := ipp1
        inFailsafeMode := true }, false)

/-- The pulse-validity test actually applied to a channel by
`detectAndApplySignalLossBehaviour`: the pulse must be valid and the
receiver must currently be usable (`useValueFromRx`). -/
def validPulseAt (s : SignalLossState) (raw : ℕ → ℚ) (channel : ℕ) : Bool :=
  (s.signalReceived && !s.inFailsafeMode) &&
    isPulseValid (floatToU16 (raw channel))

/-- The hold window of a channel is still open at `currentTimeUs`:
`cmp32(currentTimeMs, m_invalidPulsePeriod[channel]) < 0`. -/
def holdWindowOpen (s : SignalLossState) (currentTimeUs channel : ℕ) : Prop :=
  cmp32 (currentTimeUs / 1000) (s.invalidPulsePeriod channel) < 0

instance (s : SignalLossState) (currentTimeUs channel : ℕ) :
    Decidable (holdWindowOpen s currentTimeUs channel) :=
  inferInstanceAs (Decidable
    (cmp32 (currentTimeUs / 1000) (s.invalidPulsePeriod channel) < 0))

/-- The `flightChannelsValid` flag computed by one call of
`detectAndApplySignalLossBehaviour`: no flight channel (index < 4) ran the
fallback branch. -/
def flightChannelsOk (s : SignalLossState) (currentTimeUs : ℕ)
    (raw : ℕ → ℚ) : Bool :=
  (List.range 18).all fun ch =>
    !((detectCh (s.signalReceived && !s.inFailsafeMode) (currentTimeUs / 1000)
        raw s.invalidPulsePeriod ch).2.2 && decide (ch < 4))

/-- Counterexample scenario, first call: all channels read 1500 (valid) at
time 0, with signal and no failsafe; every hold deadline starts at 0. -/
def c3run1 : (ℕ → ℚ) × SignalLossState × Bool :=
  detectAndApplySignalLossBehaviour ⟨true, false, fun _ => 0⟩ 0
    (fun _ => (1500 : ℚ))

/-- Counterexample scenario, second call, 100 ms later: channel 0 now
reads 800 (an invalid pulse, below 885), the other channels still 1500. -/
def c3run2 : (ℕ → ℚ) × SignalLossState × Bool :=
  detectAndApplySignalLossBehaviour c3run1.2.1 100000
    (fun ch => if ch = 0 then (800 : ℚ) else 1500)

/-! ### MSP parser and reply serialization (src/parser.hpp)

The serialization helpers thread the output buffer, its size and its
running checksum (`buffer`, `buffer_size_`, `buffer_checksum_`); every
write is gated on the `ready` flag.  Transmitted floats are modelled as
`Rat`.
-/

/-- The output buffer triple threaded through the serialization helpers of
`parser.hpp`. -/
structure OutBuf where
  buf : ℕ → ℕ
  size : ℕ
  checksum : ℕ

/-- `addToOutBuf` (parser.hpp lines 14-22); `buffer_size` is `uint8_t`. -/
def addToOutBuf (o : OutBuf) (ready : Bool) (byte : ℕ) : OutBuf :=
  { o with
    buf := fun i => if ready ∧ i = o.size then byte else o.buf i,
    size := if ready then (o.size + 1) % 256 else o.size }

/-- `serialize` (parser.hpp lines 24-33). -/
def serialize (o : OutBuf) (ready : Bool) (byte : ℕ) : OutBuf :=
  let o1 := addToOutBuf o ready byte
  { o1 with checksum := if ready then o1.checksum ^^^ byte else o1.checksum }

/-- `prepareToSerialize` (parser.hpp lines 35-52): resets size and
checksum when ready, emits the `$M>` header, then the length byte
`count*size` and the type byte through the checksum. -/
def prepareToSerialize (o : OutBuf) (ready : Bool)
    (type count size : ℕ) : OutBuf :=
  let o0 := { o with
    size := if ready then 0 else o.size,
    checksum := if ready then 0 else o.checksum }
  let o1 := addToOutBuf o0 ready 36
  let o2 := addToOutBuf o1 ready 77
  let o3 := addToOutBuf o2 ready 62
  let o4 := serialize o3 ready ((count * size) % 256)
  serialize o4 ready type

/-- `completeSend` (parser.hpp lines 54-61): emits the running checksum. -/
def completeSend (o : OutBuf) (ready : Bool) : OutBuf :=
  serialize o ready o.checksum

/-- `prepareToSerializeFloats` (parser.hpp lines 63-72). -/
def prepareToSerializeFloats (o : OutBuf) (ready : Bool)
    (type count : ℕ) : OutBuf :=
  prepareToSerialize o ready type count 4

/-- C++ conversion of a nonnegative `float` to `uint32_t`: truncation
toward zero (out-of-range conversions are undefined behaviour and are
exercised nowhere below). -/
def floatToU32 (q : ℚ) : ℕ := (⌊q⌋).toNat

/-- `serializeFloat` (parser.hpp lines 74-87): `uintval = 1000*(value+2)`
converted to `uint32_t`, then four bytes little-endian. -/
def serializeFloat (o : OutBuf) (ready : Bool) (value : ℚ) : OutBuf :=
  let uintval := floatToU32 (1000 * (value + 2))
  let o1 := serialize o ready (uintval &&& 255)
  let o2 := serialize o1 ready ((uintval >>> 8) &&& 255)
  let o3 := serialize o2 ready ((uintval >>> 16) &&& 255)
  serialize o3 ready ((uintval >>> 24) &&& 255)

/-- The static local state of `parser_parse` (parser.hpp lines 99-105)
plus the caller-retained `buffer` / `buffer_index`: parser DFA state,
last type byte, running checksum, payload size, payload index, the shared
buffer with the outbound size/checksum accumulators, and the outbound read
index. -/
structure ParserState where
  pstate : ℕ
  ptype : ℕ
  crc : ℕ
  psize : ℕ
  pidx : ℕ
  out : OutBuf
  bufferIndex : ℕ

/-- A parser whose statics are all zero (C statics are zero-initialized)
and whose buffer is all zeros. -/
def initParser : ParserState :=
  ⟨0, 0, 0, 0, 0, ⟨fun _ => 0, 0, 0⟩, 0⟩

/-- `parser_parse` (parser.hpp lines 89-179) for one input byte.
`avail` is `stream_serialAvailable`, `byte` is `stream_serialByte`,
`phi/theta/psi` are the attitude state, `rxch 0..5` are
`stream_receiverThrottle, Roll, Pitch, Yaw, Aux1, Aux2`.  Returns the new
state and the `motor_index`, `motor_percent` outputs (zeroed on entry and
assigned only in the type-215 case). -/
def parser_parse (s : ParserState) (avail : Bool) (byte : ℕ)
    (phi theta psi : ℚ) (rxch : Fin 6 → ℚ) : ParserState × ℕ × ℕ :=
  let size1 := if s.pstate = 3 then byte else s.psize
  let index1 := if s.pstate = 5 then (s.pidx + 1) % 256 else 0
  let inPayload : Prop := 200 ≤ s.ptype ∧ s.pstate = 5 ∧ index1 ≤ size1
  let type1 := if s.pstate = 4 then byte else s.ptype
  let crc1 :=
    if s.pstate = 3 then byte
    else if s.pstate = 4 then s.crc ^^^ byte
    else if inPayload then s.crc ^^^ byte
    else if s.pstate = 5 then s.crc
    else 0
  let pstate1 :=
    if s.pstate = 0 ∧ byte = 36 then 1
    else if s.pstate = 1 ∧ byte = 77 then 2
    else if s.pstate = 2 ∧ (byte = 60 ∨ byte = 62) then 3
    else if s.pstate = 3 then 4
    else if s.pstate = 4 then 5
    else if s.pstate = 5 ∧ inPayload then 5
    else if s.pstate = 5 then 0
    else s.pstate
  let pindex := if inPayload then (index1 + 255) % 256 else 0
  let buf1 : ℕ → ℕ :=
    fun i => if inPayload ∧ i = pindex then byte else s.out.buf i
  let ready : Bool := avail && decide (pstate1 = 0) && decide (crc1 = byte)
  let bufferIndex1 := if ready = true then 0 else s.bufferIndex
  let o0 : OutBuf := ⟨buf1, s.out.size, s.out.checksum⟩
  let o1 :=
    if type1 = 121 then
      completeSend
        (serializeFloat (serializeFloat (serializeFloat (serializeFloat
          (serializeFloat (serializeFloat
            (prepareToSerializeFloats o0 ready type1 6)
            ready (rxch 0)) ready (rxch 1)) ready (rxch 2)) ready (rxch 3))
          ready (rxch 4)) ready (rxch 5)) ready
    else if type1 = 122 then
      completeSend
        (serializeFloat (serializeFloat (serializeFloat
          (prepareToSerializeFloats o0 ready type1 3)
          ready phi) ready theta) ready psi) ready
    else o0
  let motors : ℕ × ℕ := if type1 = 215 then (buf1 0, buf1 1) else (0, 0)
  (⟨pstate1, type1, crc1, size1, index1, o1, bufferIndex1⟩, motors)

/-- Feed a list of bytes to the parser (all with `avail = true`),
discarding the per-call motor outputs, as the caller's read loop does. -/
def parserRun (s : ParserState) (bytes : List ℕ)
    (phi theta psi : ℚ) (rxch : Fin 6 → ℚ) : ParserState :=
  bytes.foldl (fun st b => (parser_parse st true b phi theta psi rxch).1) s

/-- The type-122 (attitude) reply serialization of `parser_parse` (the
`case 122` branch, parser.hpp lines 159-167) with the `ready` flag true:
`prepareToSerializeFloats(122, 3)`, the three encoded floats, and
`completeSend`. -/
def msp122Frame (o : OutBuf) (phi theta psi : ℚ) : OutBuf :=
  completeSend
    (serializeFloat (serializeFloat (serializeFloat
      (prepareToSerializeFloats o true 122 3)
      true phi) true theta) true psi) true

/-! ### Receiver smoothing pipeline and demands (src/receiver.h)

This section models C `float` values as `Real`, because the pt3 gain
formula involves pi and a cube root.  Unsigned fields keep their `Nat`
models with explicit wrap-around where the C arithmetic can wrap.
-/

/-- pt3 low-pass filter state (`pt3Filter_t`, from the missing
`filters/pt3.h`; the fields are exactly those accessed in receiver.h). -/
structure pt3Filter where
  state : ℝ
  state1 : ℝ
  state2 : ℝ
  k : ℝ

/-- `Receiver::pt3FilterGain` (receiver.h lines 99-108):
`k = dT / (RC + dT)` with `RC = 1/(2 * orderCutoffCorrection * pi * f_cut)`
and `orderCutoffCorrection = 1/sqrt(2^(1/3) - 1)`. -/
noncomputable def pt3FilterGain (f_cut dT : ℝ) : ℝ :=
  let order : ℝ := 3
  let orderCutoffCorrection := 1 / Real.sqrt ((2 : ℝ) ^ ((1 : ℝ) / order) - 1)
  let RC := 1 / (2 * orderCutoffCorrection * Real.pi * f_cut)
  dT / (RC + dT)

/-- `Receiver::pt3FilterInit` (receiver.h lines 110-116). -/
noncomputable def pt3FilterInit (k : ℝ) : pt3Filter := ⟨0, 0, 0, k⟩

/-- `Receiver::pt3FilterUpdateCutoff` (receiver.h lines 118-121). -/
def pt3FilterUpdateCutoff (f : pt3Filter) (k : ℝ) : pt3Filter := { f with k := k }

/-- Modelled from the spec: `pt3FilterApply` lives in the missing
`filters/pt3.h`; §4.4 specifies a third-order low-pass with gain k, i.e.
three cascaded first-order stages with the same gain, the output being the
last stage's state. -/
noncomputable def pt3FilterApply (f : pt3Filter) (input : ℝ) : pt3Filter × ℝ :=
  let s1 := f.state1 + f.k * (input - f.state1)
  let s2 := f.state2 + f.k * (s1 - f.state2)
  let s0 := f.state + f.k * (s2 - f.state)
  (⟨s0, s1, s2, f.k⟩, s0)

/-- Modelled from the spec: `clock.h` is not among the sources.  The inner
loop period in microseconds (8 kHz class gyro loop, §4.8); theorems below
use only its positivity. -/
noncomputable def Clock_PERIOD : ℝ := 125

/-- `Clock::DT()`: the loop period in seconds. -/
noncomputable def Clock_DT : ℝ := Clock_PERIOD * 1e-6

/-- `smoothingFilter_t` (receiver.h lines 174-200).  The source field
`filterInitialized` is called `filterTrained` here. -/
structure SmoothingFilter where
  autoSmoothnessFactorSetpoint : ℕ
  averageFrameTimeUs : ℕ
  autoSmoothnessFactorThrottle : ℕ
  feedforwardCutoffFrequency : ℕ
  ffCutoffSetting : ℕ
  filterThrottle : pt3Filter
  filterRoll : pt3Filter
  filterPitch : pt3Filter
  filterYaw : pt3Filter
  filterDeflectionRoll : pt3Filter
  filterDeflectionPitch : pt3Filter
  filterTrained : Bool
  setpointCutoffFrequency : ℕ
  setpointCutoffSetting : ℕ
  throttleCutoffFrequency : ℕ
  throttleCutoffSetting : ℕ
  trainingSum : ℝ
  trainingCount : ℕ
  trainingMax : ℕ
  trainingMin : ℕ

/-- The feed-forward filter bank of `anglePid_t` as accessed by
receiver.h (the source field `feedforwardLpfInitialized` is called
`ffLpfReady` here). -/
structure AnglePid where
  ffLpfReady : Bool
  feedforwardPt3 : Fin 3 → pt3Filter

/-- `demands_t`: throttle, roll, pitch, yaw. -/
structure Demands where
  throttle : ℝ
  roll : ℝ
  pitch : ℝ
  yaw : ℝ

/-- Conversion of a nonnegative integer-valued `float`/`int` expression to
`uint16_t` (truncation; out-of-range conversion is UB and exercised
nowhere below). -/
def u16ofInt (z : ℤ) : ℕ := z.toNat % 65536

/-- Conversion to `uint32_t`. -/
def u32ofInt (z : ℤ) : ℕ := z.toNat % 4294967296

/-- `uint32_t` subtraction `a - b`. -/
def u32sub (a b : ℕ) : ℕ := (((a : ℤ) - b) % 4294967296).toNat

/-- Modelled from the spec: `constrain_f` lives in the missing `maths.h`;
the spec's "clamped" (§3): values below `low` map to `low`, above `high`
to `high`. -/
noncomputable def constrain_f (amt low high : ℝ) : ℝ :=
  if amt < low then low else if amt > high then high else amt

/-- `RC_EXPO` (receiver.h line 42). -/
noncomputable def RC_EXPO : ℝ := 0

/-- `RC_RATE` (receiver.h line 43). -/
noncomputable def RC_RATE : ℝ := 7

/-- `RATE` (receiver.h line 44). -/
noncomputable def RATE : ℝ := 67

/-- `RATE_LIMIT` (receiver.h line 87). -/
noncomputable def RATE_LIMIT : ℝ := 1998

/-- `Receiver::applyRates` (receiver.h lines 230-240). -/
noncomputable def applyRates (commandf commandfAbs : ℝ) : ℝ :=
  let expof := RC_EXPO / 100
  let expof1 := commandfAbs * (commandf ^ (5 : ℕ) * expof + commandf * (1 - expof))
  let centerSensitivity := RC_RATE * 10
  let stickMovement := max 0 (RATE * 10 - centerSensitivity)
  commandf * centerSensitivity + stickMovement * expof1

/-- `Receiver::getRawSetpoint` (receiver.h lines 847-856): the command is
scaled by the divider, shaped by `applyRates`, and clamped to
`±RATE_LIMIT = ±1998`. -/
noncomputable def getRawSetpoint (command divider : ℝ) : ℝ :=
  let commandf := command / divider
  let commandfAbs := |commandf|
  let angleRate := applyRates commandf commandfAbs
  constrain_f angleRate (-RATE_LIMIT) RATE_LIMIT

/-- `Receiver::calcAutoSmoothingCutoff` (receiver.h lines 292-306):
`lrintf((1/(avg*1e-6)) * (1.5/(1 + factor/10)))` when `avg > 0`, else 0. -/
noncomputable def calcAutoSmoothingCutoff
    (avgRxFrameTimeUs autoSmoothnessFactor : ℕ) : ℤ :=
  if 0 < avgRxFrameTimeUs then
    round ((1 / ((avgRxFrameTimeUs : ℝ) * 1e-6)) *
      (1.5 / (1 + (autoSmoothnessFactor : ℝ) / 10)))
  else 0

/-- `Receiver::rcSmoothingResetAccumulation` (receiver.h lines 308-315). -/
noncomputable def rcSmoothingResetAccumulation (sf : SmoothingFilter) :
    SmoothingFilter :=
  { sf with
    trainingSum := 0
    trainingCount := 0
    trainingMin := 65535
    trainingMax := 0 }

/-- `Receiver::rcSmoothingAccumulateSample` (receiver.h lines 656-685):
accumulate one frame interval; once `trainingCount` reaches the sample
limit (50 for initial training, 20 for retraining), discard the minimum
and maximum, set `averageFrameTimeUs = lrintf(sum / (count - 2))`, reset
the accumulation and return true. -/
noncomputable def rcSmoothingAccumulateSample (sf : SmoothingFilter)
    (frameTimeUs : ℕ) : SmoothingFilter × Bool :=
  let sum1 := sf.trainingSum + frameTimeUs
  let count1 := sf.trainingCount + 1
  let max1 := max sf.trainingMax frameTimeUs
  let min1 := min sf.trainingMin frameTimeUs
  let sampleLimit : ℕ := if sf.filterTrained then 20 else 50
  if sampleLimit ≤ count1 then
    let sum2 := sum1 - min1 - max1
    ({ sf with
        averageFrameTimeUs := u32ofInt (round (sum2 / ((count1 : ℝ) - 2)))
        trainingSum := 0
        trainingCount := 0
        trainingMin := 65535
        trainingMax := 0 }, true)
  else
    ({ sf with
        trainingSum := sum1
        trainingCount := count1
        trainingMax := max1
        trainingMin := min1 }, false)

/-- `Receiver::rcSmoothingAutoCalculate` (receiver.h lines 688-699). -/
def rcSmoothingAutoCalculate (sf : SmoothingFilter) : Bool :=
  sf.setpointCutoffSetting == 0 || sf.ffCutoffSetting == 0 ||
    sf.throttleCutoffSetting == 0

/-- `Receiver::smoothingFilterInit` (receiver.h lines 541-554). -/
noncomputable def smoothingFilterInit (sf : SmoothingFilter) (f : pt3Filter)
    (setpointCutoffFrequency dT : ℝ) : pt3Filter :=
  if sf.filterTrained = false then
    pt3FilterInit (pt3FilterGain setpointCutoffFrequency dT)
  else
    pt3FilterUpdateCutoff f (pt3FilterGain setpointCutoffFrequency dT)

/-- `Receiver::smoothingFilterInitRollPitchYaw` (receiver.h lines
556-563). -/
noncomputable def smoothingFilterInitRollPitchYaw (sf : SmoothingFilter)
    (f : pt3Filter) (dT : ℝ) : pt3Filter :=
  smoothingFilterInit sf f (sf.setpointCutoffFrequency : ℝ) dT

/-- `Receiver::levelFilterInit` (receiver.h lines 565-579). -/
noncomputable def levelFilterInit (sf : SmoothingFilter) (f : pt3Filter)
    (dT : ℝ) : pt3Filter :=
  if sf.filterTrained = false then
    pt3FilterInit (pt3FilterGain (sf.setpointCutoffFrequency : ℝ) dT)
  else
    pt3FilterUpdateCutoff f (pt3FilterGain (sf.setpointCutoffFrequency : ℝ) dT)

/-- `Receiver::smoothingFilterApply` (receiver.h lines 581-589): apply the
pt3 filter once trained, otherwise pass the data through. -/
noncomputable def smoothingFilterApply (sf : SmoothingFilter) (f : pt3Filter)
    (dataToSmooth : ℝ) : pt3Filter × ℝ :=
  if sf.filterTrained then pt3FilterApply f dataToSmooth
  else (f, dataToSmooth)

/-- `Receiver::ratePidFeedforwardLpfInit` (receiver.h lines 515-527). -/
noncomputable def ratePidFeedforwardLpfInit (apid : AnglePid)
    (filterCutoff : ℕ) : AnglePid :=
  if 0 < filterCutoff then
    { ffLpfReady := true
      feedforwardPt3 := fun _ =>
        pt3FilterInit (pt3FilterGain (filterCutoff : ℝ) Clock_DT) }
  else apid

/-- `Receiver::ratePidFeedforwardLpfUpdate` (receiver.h lines 529-539). -/
noncomputable def ratePidFeedforwardLpfUpdate (apid : AnglePid)
    (filterCutoff : ℕ) : AnglePid :=
  if 0 < filterCutoff then
    { apid with
      feedforwardPt3 := fun i =>
        pt3FilterUpdateCutoff (apid.feedforwardPt3 i)
          (pt3FilterGain (filterCutoff : ℝ) Clock_DT) }
  else apid

/-- `Receiver::setSmoothingFilterCutoffs` (receiver.h lines 591-653).
Cutoff settings of 0 mean "auto": the cutoff frequency becomes
`fmaxf(15, calcAutoSmoothingCutoff(...))` stored through the `uint16_t`
field; the setpoint/throttle/level filters are (re)initialized when the
setpoint cutoff changed or the filter is not yet trained, and the
feed-forward bank likewise. -/
noncomputable def setSmoothingFilterCutoffs (anglePidData : AnglePid)
    (sf : SmoothingFilter) : AnglePid × SmoothingFilter :=
  let dT : ℝ := Clock_PERIOD * 1e-6
  let oldCutoff := sf.setpointCutoffFrequency
  let sf1 :=
    if sf.setpointCutoffSetting = 0 then
      { sf with setpointCutoffFrequency :=
          u16ofInt (max 15 (calcAutoSmoothingCutoff sf.averageFrameTimeUs
            sf.autoSmoothnessFactorSetpoint)) }
    else sf
  let sf2 :=
    if sf1.throttleCutoffSetting = 0 then
      { sf1 with throttleCutoffFrequency :=
          u16ofInt (max 15 (calcAutoSmoothingCutoff sf1.averageFrameTimeUs
            sf1.autoSmoothnessFactorThrottle)) }
    else sf1
  let sf3 :=
    if sf2.setpointCutoffFrequency ≠ oldCutoff ∨ sf2.filterTrained = false then
      { sf2 with
        filterThrottle := smoothingFilterInit sf2 sf2.filterThrottle
          (sf2.throttleCutoffFrequency : ℝ) dT
        filterRoll := smoothingFilterInitRollPitchYaw sf2 sf2.filterRoll dT
        filterPitch := smoothingFilterInitRollPitchYaw sf2 sf2.filterPitch dT
        filterYaw := smoothingFilterInitRollPitchYaw sf2 sf2.filterYaw dT
        filterDeflectionRoll := levelFilterInit sf2 sf2.filterDeflectionRoll dT
        filterDeflectionPitch :=
          levelFilterInit sf2 sf2.filterDeflectionPitch dT }
    else sf2
  let oldCutoff2 := sf3.feedforwardCutoffFrequency
  let sf4 :=
    if sf3.ffCutoffSetting = 0 then
      { sf3 with feedforwardCutoffFrequency :=
          u16ofInt (max 15 (calcAutoSmoothingCutoff sf3.averageFrameTimeUs
            sf3.autoSmoothnessFactorSetpoint)) }
    else sf3
  let apid1 :=
    if sf4.filterTrained = false then
      ratePidFeedforwardLpfInit anglePidData sf4.feedforwardCutoffFrequency
    else if sf4.feedforwardCutoffFrequency ≠ oldCutoff2 then
      ratePidFeedforwardLpfUpdate anglePidData sf4.feedforwardCutoffFrequency
    else anglePidData
  (apid1, sf4)

/-- The receiver fields read and written by `processSmoothingFilter` and
`getDemands` (receiver.h).  The source field `m_initializedFilter` is
called `setupDone` here. -/
structure ReceiverSm where
  smoothingFilter : SmoothingFilter
  setupDone : Bool
  calculatedCutoffs : Bool
  gotNewData : Bool
  command : Fin 4 → ℝ
  commands : Demands
  dataToSmooth : Demands
  signalReceived : Bool
  isRateValid : Bool
  refreshPeriod : ℕ
  validFrameTimeMs : ℕ
  previousFrameTimeUs : ℕ

/-- The first-call initialization block of
`Receiver::processSmoothingFilter` (receiver.h lines 707-747). -/
noncomputable def psfInit (s : ReceiverSm) (anglePidData : AnglePid) :
    ReceiverSm × AnglePid :=
  let sf0 := { s.smoothingFilter with
    filterTrained := false
    averageFrameTimeUs := 0
    autoSmoothnessFactorSetpoint := 30
    autoSmoothnessFactorThrottle := 30
    setpointCutoffSetting := 0
    throttleCutoffSetting := 0
    ffCutoffSetting := 0 }
  let sf1 := rcSmoothingResetAccumulation sf0
  let sf2 := { sf1 with
    setpointCutoffFrequency := sf1.setpointCutoffSetting
    throttleCutoffFrequency := sf1.throttleCutoffSetting }
  let sf3 :=
    if sf2.ffCutoffSetting = 0 then
      { sf2 with feedforwardCutoffFrequency :=
          u16ofInt (round ((100 : ℝ) *
            (1.5 / (1 + (sf2.autoSmoothnessFactorSetpoint : ℝ) / 10)))) }
    else { sf2 with feedforwardCutoffFrequency := sf2.ffCutoffSetting }
  let cc := rcSmoothingAutoCalculate sf3
  if cc = false then
    let p := setSmoothingFilterCutoffs anglePidData sf3
    ({ s with
        smoothingFilter := { p.2 with filterTrained := true }
        calculatedCutoffs := cc }, p.1)
  else
    ({ s with smoothingFilter := sf3, calculatedCutoffs := cc }, anglePidData)

/-- The per-frame training block of `Receiver::processSmoothingFilter`
(receiver.h lines 754-825), guarded by `m_calculatedCutoffs` and run on
new data: after the 5000 ms startup delay, with signal and a valid rate,
set the guard time if unset and, once it has expired, either reset the
accumulation (retraining sample within 20 percent of the average) or
accumulate the sample, and on completion set the filter cutoffs and mark
the filter trained. -/
noncomputable def psfTraining (s : ReceiverSm) (currentTimeUs : ℕ)
    (anglePidData : AnglePid) : ReceiverSm × AnglePid :=
  let currentTimeMs := currentTimeUs / 1000
  if 5000 < currentTimeMs then
    if s.signalReceived && s.isRateValid then
      let vft :=
        if s.validFrameTimeMs = 0 then
          currentTimeMs +
            (if s.smoothingFilter.filterTrained then 2000 else 1000)
        else s.validFrameTimeMs
      let s1 := { s with validFrameTimeMs := vft }
      if vft < currentTimeMs then
        let resetOrKeep :=
          if s1.smoothingFilter.filterTrained then
            let percentChange :=
              |((u32sub s1.refreshPeriod
                  s1.smoothingFilter.averageFrameTimeUs : ℕ) : ℝ) /
                (s1.smoothingFilter.averageFrameTimeUs : ℝ)| * 100
            if percentChange < 20 then
              (rcSmoothingResetAccumulation s1.smoothingFilter, false)
            else (s1.smoothingFilter, true)
          else (s1.smoothingFilter, true)
        if resetOrKeep.2 then
          let ab := rcSmoothingAccumulateSample resetOrKeep.1 s1.refreshPeriod
          if ab.2 then
            let p := setSmoothingFilterCutoffs anglePidData ab.1
            ({ s1 with
                smoothingFilter := { p.2 with filterTrained := true }
                validFrameTimeMs := 0 }, p.1)
          else ({ s1 with smoothingFilter := ab.1 }, anglePidData)
        else ({ s1 with smoothingFilter := resetOrKeep.1 }, anglePidData)
      else (s1, anglePidData)
    else
      ({ s with smoothingFilter :=
          rcSmoothingResetAccumulation s.smoothingFilter }, anglePidData)
  else (s, anglePidData)

/-- The data-capture step of `Receiver::processSmoothingFilter`
(receiver.h lines 748-752): on new data, latch the throttle command and
the raw setpoints as the data to smooth. -/
noncomputable def psfData (s : ReceiverSm) (rawSetpoint : Fin 3 → ℝ) :
    ReceiverSm :=
  if s.gotNewData then
    { s with dataToSmooth :=
      { throttle := s.commands.throttle
        roll := rawSetpoint 0
        pitch := rawSetpoint 1
        yaw := rawSetpoint 2 } }
  else s

/-- The filter-application tail of `Receiver::processSmoothingFilter`
(receiver.h lines 827-845): one application of the throttle and
roll/pitch/yaw smoothing filters, returning the new state and
`setpointRate[0..2]`. -/
noncomputable def psfApply (s4 : ReceiverSm) : ReceiverSm × (Fin 3 → ℝ) :=
  let sf := s4.smoothingFilter
  let aT := smoothingFilterApply sf sf.filterThrottle s4.dataToSmooth.throttle
  let aR := smoothingFilterApply sf sf.filterRoll s4.dataToSmooth.roll
  let aP := smoothingFilterApply sf sf.filterPitch s4.dataToSmooth.pitch
  let aY := smoothingFilterApply sf sf.filterYaw s4.dataToSmooth.yaw
  let s5 := { s4 with
    smoothingFilter := { sf with
      filterThrottle := aT.1
      filterRoll := aR.1
      filterPitch := aP.1
      filterYaw := aY.1 }
    commands := { s4.commands with throttle := aT.2 } }
  (s5, ![aR.2, aP.2, aY.2])

/-- `Receiver::processSmoothingFilter` (receiver.h lines 701-845):
first-call initialization, then (on new data) the training block and the
capture of the data to smooth, then one application of the throttle and
roll/pitch/yaw filters.  Returns the new receiver state, the new angle-PID
data and `setpointRate[0..2]`. -/
noncomputable def processSmoothingFilter (s : ReceiverSm)
    (anglePidData : AnglePid) (currentTimeUs : ℕ)
    (rawSetpoint : Fin 3 → ℝ) : ReceiverSm × AnglePid × (Fin 3 → ℝ) :=
  let p1 := if s.setupDone = false then psfInit s anglePidData
            else (s, anglePidData)
  let s2 := { p1.1 with setupDone := true }
  let p2 :=
    if s2.gotNewData && s2.calculatedCutoffs then
      psfTraining s2 currentTimeUs p1.2
    else (s2, p1.2)
  let s4 := psfData p2.1 rawSetpoint
  let q := psfApply s4
  (q.1, p2.2, q.2)

/-- Modelled from the spec: `PWM_MIN` lives in the missing `pwm.h`;
standard minimum pulse width 1000 (the demands formula divides by
`PWM_MAX - PWM_MIN` and clamps to [0,1], so only `PWM_MIN < PWM_MAX`
matters for any theorem below). -/
noncomputable def PWM_MIN : ℝ := 1000

/-- Modelled from the spec: `PWM_MAX`, standard maximum pulse width
2000. -/
noncomputable def PWM_MAX : ℝ := 2000

/-- `COMMAND_DIVIDER` (receiver.h line 90). -/
noncomputable def COMMAND_DIVIDER : ℝ := 500

/-- `YAW_COMMAND_DIVIDER` (receiver.h line 91). -/
noncomputable def YAW_COMMAND_DIVIDER : ℝ := 500

/-- `Receiver::getDemands` (receiver.h lines 980-1015): on new data the
raw setpoints are computed from `m_command[ROLL/PITCH/YAW]` (clamped to
±1998 inside `getRawSetpoint`); the smoothing filter is processed; the
returned throttle is `(m_commands.throttle - PWM_MIN)/(PWM_MAX - PWM_MIN)`
clamped to [0,1] and roll/pitch/yaw are the smoothed setpoint rates. -/
noncomputable def getDemands (s : ReceiverSm) (anglePidData : AnglePid)
    (currentTimeUs : ℕ) : ReceiverSm × AnglePid × Demands :=
  let rawSetpoint : Fin 3 → ℝ :=
    if s.gotNewData then
      ![getRawSetpoint (s.command 1) COMMAND_DIVIDER,
        getRawSetpoint (s.command 2) COMMAND_DIVIDER,
        getRawSetpoint (s.command 3) YAW_COMMAND_DIVIDER]
    else ![0, 0, 0]
  let s0 := if s.gotNewData then { s with previousFrameTimeUs := 0 } else s
  let p := processSmoothingFilter s0 anglePidData currentTimeUs rawSetpoint
  let throttle :=
    constrain_f ((p.1.commands.throttle - PWM_MIN) / (PWM_MAX - PWM_MIN)) 0 1
  ({ p.1 with gotNewData := false }, p.2.1,
    { throttle := throttle
      roll := p.2.2 0
      pitch := p.2.2 1
      yaw := p.2.2 2 })

/-- Constant-interval training: iterate `rcSmoothingAccumulateSample`
`n` times from `sf`, keeping the returned filter each time. -/
noncomputable def accumulateN (sf : SmoothingFilter) (frameTimeUs : ℕ) :
    ℕ → SmoothingFilter
  | 0 => sf
  | n + 1 => (rcSmoothingAccumulateSample (accumulateN sf frameTimeUs n)
      frameTimeUs).1

/-- The smoothing-filter invariant for one pt3 filter: states within
±1998 and gain in `[0, 1]`. -/
def filterInv (f : pt3Filter) : Prop :=
  |f.state| ≤ 1998 ∧ |f.state1| ≤ 1998 ∧ |f.state2| ≤ 1998 ∧
    0 ≤ f.k ∧ f.k ≤ 1

/-- The receiver smoothing invariant: the roll/pitch/yaw filters
satisfy `filterInv` and the captured data to smooth is within ±1998. -/
def smoothInv (s : ReceiverSm) : Prop :=
  filterInv s.smoothingFilter.filterRoll ∧
  filterInv s.smoothingFilter.filterPitch ∧
  filterInv s.smoothingFilter.filterYaw ∧
  |s.dataToSmooth.roll| ≤ 1998 ∧ |s.dataToSmooth.pitch| ≤ 1998 ∧
  |s.dataToSmooth.yaw| ≤ 1998

/-- A zeroed pt3 filter (boot state). -/
noncomputable def filterZero : pt3Filter := ⟨0, 0, 0, 0⟩

/-- A zeroed smoothing filter (boot state). -/
noncomputable def smoothingFilterZero : SmoothingFilter :=
  ⟨0, 0, 0, 0, 0, filterZero, filterZero, filterZero, filterZero,
   filterZero, filterZero, false, 0, 0, 0, 0, 0, 0, 0, 0⟩

/-- A zeroed receiver state (boot state). -/
noncomputable def receiverZero : ReceiverSm :=
  ⟨smoothingFilterZero, false, false, false, fun _ => 0, ⟨0, 0, 0, 0⟩,
   ⟨0, 0, 0, 0⟩, false, false, 0, 0, 0⟩

/-- A zeroed angle-PID filter bank (boot state). -/
noncomputable def anglePidZero : AnglePid := ⟨false, fun _ => filterZero⟩

/-! ## Theorems -/

/-- A receiver event preserves "failsafe latched and disarmed". -/
theorem armStep_failsafe_invariant :
    ∀ (s : BoardArmState) (e : RxEvent),
      s.arming.gotFailsafe = true → s.arming.isArmed = false →
        (armStep s e).arming.gotFailsafe = true ∧
          (armStep s e).arming.isArmed = false := by decide

/-- `readyToArm` is false whenever `gotFailsafe` holds. -/
theorem readyToArm_false_of_failsafe :
    ∀ a : ArmingData, a.gotFailsafe = true → readyToArm a = false := by decide

/-- Claim C1: once the arming record's `gotFailsafe` flag is set (which
happens together with a disarm), `isArmed` is false and remains false
under every subsequent sequence of receiver updates (in particular until a
valid frame has been received and the arm switch deasserted, since
`gotFailsafe` is never cleared by these updates); `readyToArm` is false
while `gotFailsafe` holds, so no `attemptToArm` call can set `isArmed`;
and at the very update that sets `gotFailsafe` the record is disarmed. -/
theorem claim_C1 (s : BoardArmState) (es : List RxEvent)
    (hfs : s.arming.gotFailsafe = true) (harm : s.arming.isArmed = false) :
    readyToArm s.arming = false ∧
      (armRun s es).arming.isArmed = false ∧
      (armRun s es).arming.gotFailsafe = true ∧
      (∀ (a : ArmingData) (tid aux sig : Bool),
        a.gotFailsafe = false →
          (updateFromReceiver a tid aux sig).gotFailsafe = true →
          (updateFromReceiver a tid aux sig).isArmed = false) := by
  have main : ∀ (es : List RxEvent) (s : BoardArmState),
      s.arming.gotFailsafe = true → s.arming.isArmed = false →
      (armRun s es).arming.isArmed = false ∧
        (armRun s es).arming.gotFailsafe = true := by
    intro es
    induction es with
    | nil => intro s h1 h2; exact ⟨h2, h1⟩
    | cons e es ih =>
        intro s h1 h2
        have h := armStep_failsafe_invariant s e h1 h2
        simpa [armRun] using ih (armStep s e) h.1 h.2
  exact ⟨readyToArm_false_of_failsafe s.arming hfs, (main es s hfs harm).1,
    (main es s hfs harm).2, by decide⟩

/-- Witness for C1 at a concrete failsafed state and event sequence. -/
theorem claim_C1_witness :
    (⟨⟨false, true, true, false, false, false, false, false⟩, false⟩ :
        BoardArmState).arming.gotFailsafe = true ∧
    (⟨⟨false, true, true, false, false, false, false, false⟩, false⟩ :
        BoardArmState).arming.isArmed = false ∧
    readyToArm (⟨⟨false, true, true, false, false, false, false, false⟩,
        false⟩ : BoardArmState).arming = false ∧
    (armRun ⟨⟨false, true, true, false, false, false, false, false⟩, false⟩
      [RxEvent.check true true true,
        RxEvent.update true true]).arming.isArmed = false :=
  ⟨rfl, rfl,
    (claim_C1 ⟨⟨false, true, true, false, false, false, false, false⟩, false⟩
      [RxEvent.check true true true, RxEvent.update true true] rfl rfl).1,
    (claim_C1 ⟨⟨false, true, true, false, false, false, false, false⟩, false⟩
      [RxEvent.check true true true, RxEvent.update true true] rfl
      rfl).2.1⟩

/-- A receiver event whose arm switch is asserted preserves "switch not
yet okay and disarmed". -/
theorem armStep_switch_invariant :
    ∀ (s : BoardArmState) (e : RxEvent), eventAux1 e = true →
      s.arming.switchOkay = false → s.arming.isArmed = false →
        (armStep s e).arming.switchOkay = false ∧
          (armStep s e).arming.isArmed = false := by decide

/-- Claim C2: starting disarmed with `switchOkay` still false (as at
boot, where all flags are false), no sequence of receiver events whose arm
switch is always asserted ever arms, and `switchOkay` stays false;
moreover `switchOkay` is forced false by an update in which arming is not
ready while aux1 is set, and a disarmed update can only raise `switchOkay`
when its aux1 is not set. -/
theorem claim_C2 (s : BoardArmState) (es : List RxEvent)
    (hso : s.arming.switchOkay = false) (harm : s.arming.isArmed = false)
    (hall : ∀ e ∈ es, eventAux1 e = true) :
    ((armRun s es).arming.isArmed = false ∧
      (armRun s es).arming.switchOkay = false) ∧
    (∀ (a : ArmingData) (tid sig : Bool), a.isArmed = false →
      readyToArm { a with throttleIsDown := tid } = false →
      (updateFromReceiver a tid true sig).switchOkay = false) ∧
    (∀ (a : ArmingData) (tid aux sig : Bool), a.isArmed = false →
      a.switchOkay = false →
      (updateFromReceiver a tid aux sig).switchOkay = true → aux = false) := by
  refine ⟨?_, by decide, by decide⟩
  have main : ∀ (es : List RxEvent) (s : BoardArmState),
      s.arming.switchOkay = false → s.arming.isArmed = false →
      (∀ e ∈ es, eventAux1 e = true) →
      (armRun s es).arming.isArmed = false ∧
        (armRun s es).arming.switchOkay = false := by
    intro es
    induction es with
    | nil => intro s h1 h2 _; exact ⟨h2, h1⟩
    | cons e es ih =>
        intro s h1 h2 hall
        have he : eventAux1 e = true := hall e (List.mem_cons_self e es)
        have h := armStep_switch_invariant s e he h1 h2
        have := ih (armStep s e) h.1 h.2 fun x hx =>
          hall x (List.mem_cons_of_mem e hx)
        simpa [armRun] using this
  exact main es s hso harm hall

/-- Truncating a value that is already a natural number is the
identity. -/
theorem floatToU16_natCast (n : ℕ) : floatToU16 ((n : ℕ) : ℚ) = n := by
  simp [floatToU16]

/-- For flight channels (mode AUTO) `getFailValue` ignores `rcData`:
throttle falls back to 885, roll/pitch/yaw to 1500. -/
theorem getFailValue_flight (rcData : ℕ → ℚ) (channel : ℕ)
    (h : channel < 4) :
    getFailValue rcData channel = if channel = THROTTLE then 885 else 1500 := by
  interval_cases channel <;>
    simp [getFailValue, failsafeChannelMode, THROTTLE, ROLL, PITCH, YAW]

/-- For channels 4-17 (mode HOLD) `getFailValue` returns the truncated
current value. -/
theorem getFailValue_hold (rcData : ℕ → ℚ) (channel : ℕ) (h : 4 ≤ channel) :
    getFailValue rcData channel = floatToU16 (rcData channel) := by
  have h4 : ¬ channel < 4 := by omega
  simp [getFailValue, failsafeChannelMode, h4]

/-- `getFailValue` is insensitive to replacing a channel's value by its
own fail value (the fail value of a flight channel is a constant, and
re-truncating a truncated hold value changes nothing). -/
theorem getFailValue_update_self (raw raw1 : ℕ → ℚ) (channel : ℕ)
    (hsame : raw1 channel = raw channel ∨
      raw1 channel = ((getFailValue raw channel : ℕ) : ℚ)) :
    getFailValue raw1 channel = getFailValue raw channel := by
  by_cases h4 : channel < 4
  · rw [getFailValue_flight raw1 channel h4, getFailValue_flight raw channel h4]
  · have h4' : 4 ≤ channel := by omega
    rw [getFailValue_hold raw1 channel h4', getFailValue_hold raw channel h4']
    rcases hsame with h | h
    · rw [h]
    · rw [h, getFailValue_hold raw channel h4', floatToU16_natCast]

/-- Witness for C2: from the boot state (all flags false), two
switch-asserted events leave the system disarmed with `switchOkay`
false. -/
theorem claim_C2_witness :
    bootArmState.arming.switchOkay = false ∧
    bootArmState.arming.isArmed = false ∧
    (∀ e ∈ [RxEvent.check true true true, RxEvent.update true true],
      eventAux1 e = true) ∧
    (armRun bootArmState
      [RxEvent.check true true true,
        RxEvent.update true true]).arming.isArmed = false :=
  ⟨rfl, rfl, by decide,
    (claim_C2 bootArmState
      [RxEvent.check true true true, RxEvent.update true true] rfl rfl
      (by decide)).1.1⟩

/-- Claim C3, counterexample.  Channel 0 delivers a valid pulse (1500) at
t = 0, so the last valid value is 1500 and the hold deadline is 300 ms.
At t = 100 ms the channel delivers an invalid pulse (800, below 885);
the hold window is still open, yet the output is 800 — the invalid
current sample — and not the last valid value 1500. -/
theorem claim_C3_counterexample :
    c3run1.1 0 = 1500 ∧
    c3run1.2.1.invalidPulsePeriod 0 = 300 ∧
    isPulseValid (floatToU16 800) = false ∧
    cmp32 (100000 / 1000) (c3run1.2.1.invalidPulsePeriod 0) < 0 ∧
    c3run2.1 0 = 800 ∧
    ¬ c3run2.1 0 = 1500 := by decide

/-- Claim C3, amended: for every channel, (i) a valid pulse (in a frame
whose flight channels are all recovered) passes through and re-arms the
300 ms hold deadline; (ii) after an invalid pulse the channel holds the
*current raw sample* — which equals the last valid value only as long as
the decoded channel data has not changed — while the window is open and
the flight channels are all recovered; (iii) once the window has elapsed
the output is the configured `getFailValue` fallback; and (iv) whenever
some flight channel could not be recovered, every channel's output is its
`getFailValue` fallback. -/
theorem claim_C3_amended (s : SignalLossState) (currentTimeUs : ℕ)
    (raw : ℕ → ℚ) (channel : ℕ) (hch : channel < 18) :
    (validPulseAt s raw channel = true →
      flightChannelsOk s currentTimeUs raw = true →
      (detectAndApplySignalLossBehaviour s currentTimeUs raw).1 channel
          = raw channel ∧
        (detectAndApplySignalLossBehaviour s currentTimeUs
            raw).2.1.invalidPulsePeriod channel
          = (currentTimeUs / 1000 + MAX_INVALID__PULSE_TIME) % 4294967296) ∧
    (validPulseAt s raw channel = false →
      holdWindowOpen s currentTimeUs channel →
      flightChannelsOk s currentTimeUs raw = true →
      (detectAndApplySignalLossBehaviour s currentTimeUs raw).1 channel
        = raw channel) ∧
    (validPulseAt s raw channel = false →
      ¬ holdWindowOpen s currentTimeUs channel →
      (detectAndApplySignalLossBehaviour s currentTimeUs raw).1 channel
        = ((getFailValue raw channel : ℕ) : ℚ)) ∧
    (flightChannelsOk s currentTimeUs raw = false →
      (detectAndApplySignalLossBehaviour s currentTimeUs raw).1 channel
        = ((getFailValue raw channel : ℕ) : ℚ)) := by
  have hstep : ∀ ch : ℕ,
      detectCh (s.signalReceived && !s.inFailsafeMode) (currentTimeUs / 1000)
        raw s.invalidPulsePeriod ch =
      if validPulseAt s raw ch = true then
        (raw ch,
          (currentTimeUs / 1000 + MAX_INVALID__PULSE_TIME) % 4294967296, false)
      else if cmp32 (currentTimeUs / 1000) (s.invalidPulsePeriod ch) < 0 then
        (raw ch, s.invalidPulsePeriod ch, false)
      else ((getFailValue raw ch : ℕ), s.invalidPulsePeriod ch, true) := by
    intro ch
    rfl
  have hsame : ∀ ch : ℕ,
      (detectCh (s.signalReceived && !s.inFailsafeMode) (currentTimeUs / 1000)
          raw s.invalidPulsePeriod ch).1 = raw ch ∨
      (detectCh (s.signalReceived && !s.inFailsafeMode) (currentTimeUs / 1000)
          raw s.invalidPulsePeriod ch).1
        = ((getFailValue raw ch : ℕ) : ℚ) := by
    intro ch
    rw [hstep ch]
    by_cases h1 : validPulseAt s raw ch = true
    · simp [h1]
    · simp only [h1, if_false]
      by_cases h2 : cmp32 (currentTimeUs / 1000) (s.invalidPulsePeriod ch) < 0
      · simp [h2]
      · simp [h2]
  constructor
  · intro hv hok
    simp only [detectAndApplySignalLossBehaviour, flightChannelsOk] at hok ⊢
    rw [if_pos (by exact hok)]
    have := hstep channel
    constructor
    · simp only [hch, if_pos]
      rw [this, if_pos hv]
    · simp only [hch, if_pos]
      rw [this, if_pos hv]
  constructor
  · intro hv hw hok
    simp only [detectAndApplySignalLossBehaviour, flightChannelsOk] at hok ⊢
    rw [if_pos (by exact hok)]
    simp only [hch, if_pos]
    rw [hstep channel, if_neg (by simp [hv]),
      if_pos (show cmp32 (currentTimeUs / 1000)
        (s.invalidPulsePeriod channel) < 0 from hw)]
  constructor
  · intro hv hw
    simp only [detectAndApplySignalLossBehaviour]
    have hres : (detectCh (s.signalReceived && !s.inFailsafeMode)
        (currentTimeUs / 1000) raw s.invalidPulsePeriod channel).1
        = ((getFailValue raw channel : ℕ) : ℚ) := by
      rw [hstep channel, if_neg (by simp [hv]),
        if_neg (by simpa [holdWindowOpen] using hw)]
    by_cases hok : (List.range 18).all (fun ch =>
        !((detectCh (s.signalReceived && !s.inFailsafeMode)
            (currentTimeUs / 1000) raw s.invalidPulsePeriod ch).2.2 &&
          decide (ch < 4))) = true
    · rw [if_pos hok]
      simp only [hch, if_pos]
      exact hres
    · rw [if_neg hok]
      simp only [hch, if_pos]
      have hup : getFailValue (fun ch => if ch < 18 then
          (detectCh (s.signalReceived && !s.inFailsafeMode)
            (currentTimeUs / 1000) raw s.invalidPulsePeriod ch).1
          else raw ch) channel = getFailValue raw channel := by
        apply getFailValue_update_self
        simp only [hch, if_pos]
        exact hsame channel
      rw [hup]
  · intro hnotok
    simp only [detectAndApplySignalLossBehaviour, flightChannelsOk] at hnotok ⊢
    rw [if_neg (show ¬ ((List.range 18).all (fun ch =>
        !((detectCh (s.signalReceived && !s.inFailsafeMode)
            (currentTimeUs / 1000) raw s.invalidPulsePeriod ch).2.2 &&
          decide (ch < 4))) = true) by
      simp only [hnotok]; exact Bool.false_ne_true)]
    simp only [hch, if_pos]
    have hup : getFailValue (fun ch => if ch < 18 then
        (detectCh (s.signalReceived && !s.inFailsafeMode)
          (currentTimeUs / 1000) raw s.invalidPulsePeriod ch).1
        else raw ch) channel = getFailValue raw channel := by
      apply getFailValue_update_self
      simp only [hch, if_pos]
      exact hsame channel
    rw [hup]

/-- Witness for C3 (amended), hold case: with the window open (deadline
300, time 100 ms), flight channels recovered, and channel 0 carrying the
invalid sample 800, the call leaves channel 0 at the current sample
800. -/
theorem claim_C3_witness :
    (0 : ℕ) < 18 ∧
    validPulseAt ⟨true, false, fun _ => 300⟩
      (fun ch => if ch = 0 then (800 : ℚ) else 1500) 0 = false ∧
    holdWindowOpen ⟨true, false, fun _ => 300⟩ 100000 0 ∧
    flightChannelsOk ⟨true, false, fun _ => 300⟩ 100000
      (fun ch => if ch = 0 then (800 : ℚ) else 1500) = true ∧
    (detectAndApplySignalLossBehaviour ⟨true, false, fun _ => 300⟩ 100000
        (fun ch => if ch = 0 then (800 : ℚ) else 1500)).1 0
      = (fun ch => if ch = 0 then (800 : ℚ) else 1500) 0 :=
  ⟨by decide, by decide, by decide, by decide,
    (claim_C3_amended ⟨true, false, fun _ => 300⟩ 100000
        (fun ch => if ch = 0 then (800 : ℚ) else 1500) 0
        (by decide)).2.1 (by decide) (by decide) (by decide)⟩

/-- Claim C4, counterexample: `rxfail_step_to_channel_value` computes
`(PWM_PULSE_MIN + 25*step) mod 256` with `PWM_PULSE_MIN = 750` through a
`uint8_t` return type, so for the configured step 30 it yields 220, not
`885 + 25*30 = 1635`. -/
theorem claim_C4_counterexample :
    rxfail_step_to_channel_value 30 = 220 ∧
      ¬ rxfail_step_to_channel_value 30 = 885 + 25 * 30 := by decide

/-- Claim C4, amended: `getFailValue` implements the fallback table with
AUTO as claimed (roll/pitch/yaw 1500, throttle 885); HOLD and INVALID
keep the current channel value truncated through the `uint16_t` return
type; and the SET value is `(750 + 25*step) mod 256` (the helper starts
from `PWM_PULSE_MIN = 750`, not 885, and returns `uint8_t`), with the
configured steps being 30 everywhere except step 5 on channel 3. -/
theorem claim_C4_amended (rcData : ℕ → ℚ) (channel : ℕ)
    (hch : channel < 18) :
    (channel < 4 → failsafeChannelMode channel = 0 ∧
      getFailValue rcData channel
        = if channel = THROTTLE then 885 else 1500) ∧
    (4 ≤ channel → failsafeChannelMode channel = 1 ∧
      getFailValue rcData channel = floatToU16 (rcData channel)) ∧
    (∀ step : ℕ,
      rxfail_step_to_channel_value step = (750 + 25 * step) % 256) ∧
    failsafeChannelStep channel = if channel = 3 then 5 else 30 := by
  refine ⟨?_, ?_, fun _ => rfl, rfl⟩
  · intro h4
    exact ⟨by simp [failsafeChannelMode, h4],
      getFailValue_flight rcData channel h4⟩
  · intro h4
    have h4' : ¬ channel < 4 := by omega
    exact ⟨by simp [failsafeChannelMode, h4'],
      getFailValue_hold rcData channel h4⟩

/-- Witness for C4 (amended) at channel 2 (pitch) and channel 5 with the
fractional current value 1761.5. -/
theorem claim_C4_witness :
    (2 : ℕ) < 18 ∧ (5 : ℕ) < 18 ∧
    getFailValue (fun _ => (3523/2 : ℚ)) 2 = 1500 ∧
    getFailValue (fun _ => (3523/2 : ℚ)) 5
      = floatToU16 ((3523/2 : ℚ)) :=
  ⟨by decide, by decide,
    by
      have h := ((claim_C4_amended (fun _ => (3523/2 : ℚ)) 2
        (by decide)).1 (by decide)).2
      simpa using h,
    ((claim_C4_amended (fun _ => (3523/2 : ℚ)) 5 (by decide)).2.1
      (by decide)).2⟩

/-- Claim C10, counterexample: for a channel in HOLD mode the value is
not returned unchanged — the `uint16_t` return type truncates it.  With
`rcData[4] = 1761.5` the function returns 1761. -/
theorem claim_C10_counterexample :
    getFailValue (fun _ => (3523/2 : ℚ)) 4 = 1761 ∧
      ¬ ((getFailValue (fun _ => (3523/2 : ℚ)) 4 : ℕ) : ℚ)
        = (3523/2 : ℚ) := by
  have h : getFailValue (fun _ => (3523/2 : ℚ)) 4 = 1761 := by
    rw [getFailValue_hold (fun _ => (3523/2 : ℚ)) 4 (by norm_num)]
    simp only [floatToU16]
    norm_num
    decide
  exact ⟨h, by rw [h]; norm_num⟩

/-- Claim C10, amended: the hard-coded configuration gives mode AUTO (0)
to channels 0-3 and HOLD (1) to channels 4-17; consequently for every
channel index ≥ 4 the function returns the current `rcData[channel]`
truncated to an integer by the `uint16_t` return type (unchanged whenever
the value is integral), and the `FAILSAFE_MODE_SET` branch is unreachable
for every channel (no channel has mode 2). -/
theorem claim_C10_amended (rcData : ℕ → ℚ) (channel : ℕ)
    (hch : channel < 18) :
    (channel < 4 → failsafeChannelMode channel = 0) ∧
    (4 ≤ channel → failsafeChannelMode channel = 1 ∧
      getFailValue rcData channel = floatToU16 (rcData channel)) ∧
    failsafeChannelMode channel ≠ 2 ∧
    (∀ n : ℕ, 4 ≤ channel → rcData channel = (n : ℚ) →
      getFailValue rcData channel = n) := by
  refine ⟨?_, ?_, ?_, ?_⟩
  · intro h4; simp [failsafeChannelMode, h4]
  · intro h4
    have h4' : ¬ channel < 4 := by omega
    exact ⟨by simp [failsafeChannelMode, h4'],
      getFailValue_hold rcData channel h4⟩
  · by_cases h4 : channel < 4 <;> simp [failsafeChannelMode, h4]
  · intro n h4 hval
    rw [getFailValue_hold rcData channel h4, hval, floatToU16_natCast]

/-- With `ready = false`, `addToOutBuf` does nothing. -/
theorem addToOutBuf_not_ready (o : OutBuf) (b : ℕ) :
    addToOutBuf o false b = o := by
  simp [addToOutBuf]

/-- With `ready = false`, `serialize` does nothing. -/
theorem serialize_not_ready (o : OutBuf) (b : ℕ) :
    serialize o false b = o := by
  simp [serialize, addToOutBuf]

/-- With `ready = false`, `prepareToSerialize` does nothing. -/
theorem prepareToSerialize_not_ready (o : OutBuf) (t c z : ℕ) :
    prepareToSerialize o false t c z = o := by
  simp [prepareToSerialize, serialize_not_ready, addToOutBuf_not_ready]

/-- With `ready = false`, `prepareToSerializeFloats` does nothing. -/
theorem prepareToSerializeFloats_not_ready (o : OutBuf) (t c : ℕ) :
    prepareToSerializeFloats o false t c = o := by
  simp [prepareToSerializeFloats, prepareToSerialize_not_ready]

/-- With `ready = false`, `serializeFloat` does nothing. -/
theorem serializeFloat_not_ready (o : OutBuf) (v : ℚ) :
    serializeFloat o false v = o := by
  simp [serializeFloat, serialize_not_ready]

/-- With `ready = false`, `completeSend` does nothing. -/
theorem completeSend_not_ready (o : OutBuf) :
    completeSend o false = o := by
  simp [completeSend, serialize_not_ready]

/-- With `ready = true`, `addToOutBuf` writes at the current size. -/
theorem addToOutBuf_ready_buf (o : OutBuf) (b i : ℕ) :
    (addToOutBuf o true b).buf i = if i = o.size then b else o.buf i := by
  simp [addToOutBuf]

/-- With `ready = true`, `addToOutBuf` advances the size. -/
theorem addToOutBuf_ready_size (o : OutBuf) (b : ℕ) :
    (addToOutBuf o true b).size = (o.size + 1) % 256 := by
  simp [addToOutBuf]

/-- `addToOutBuf` never touches the checksum. -/
theorem addToOutBuf_ready_checksum (o : OutBuf) (b : ℕ) :
    (addToOutBuf o true b).checksum = o.checksum := rfl

/-- With `ready = true`, `serialize` writes at the current size. -/
theorem serialize_ready_buf (o : OutBuf) (b i : ℕ) :
    (serialize o true b).buf i = if i = o.size then b else o.buf i := by
  simp [serialize, addToOutBuf]

/-- With `ready = true`, `serialize` advances the size. -/
theorem serialize_ready_size (o : OutBuf) (b : ℕ) :
    (serialize o true b).size = (o.size + 1) % 256 := by
  simp [serialize, addToOutBuf]

/-- With `ready = true`, `serialize` xors the byte into the checksum. -/
theorem serialize_ready_checksum (o : OutBuf) (b : ℕ) :
    (serialize o true b).checksum = o.checksum ^^^ b := by
  simp [serialize, addToOutBuf]

/-- With `ready = true`, `prepareToSerialize` leaves size 5. -/
theorem prepareToSerialize_ready_size (o : OutBuf) (t c z : ℕ) :
    (prepareToSerialize o true t c z).size = 5 := by
  simp [prepareToSerialize, serialize, addToOutBuf]

/-- With `ready = true`, `prepareToSerialize` accumulates the length and
type bytes into the reset checksum. -/
theorem prepareToSerialize_ready_checksum (o : OutBuf) (t c z : ℕ) :
    (prepareToSerialize o true t c z).checksum = ((c * z) % 256) ^^^ t := by
  simp [prepareToSerialize, serialize, addToOutBuf]

/-- With `ready = true`, `prepareToSerialize` writes the header, length
and type bytes at indices 0-4. -/
theorem prepareToSerialize_ready_buf (o : OutBuf) (t c z i : ℕ) :
    (prepareToSerialize o true t c z).buf i =
      if i = 4 then t else if i = 3 then (c * z) % 256
      else if i = 2 then 62 else if i = 1 then 77
      else if i = 0 then 36 else o.buf i := by
  simp only [prepareToSerialize, serialize_ready_buf, serialize_ready_size,
    addToOutBuf_ready_buf, addToOutBuf_ready_size]
  norm_num

/-- Reassembling the four little-endian bytes of a `uint32` value. -/
theorem le4_reconstruct (x : ℕ) (hx : x < 4294967296) :
    (x &&& 255) + 256 * ((x >>> 8) &&& 255) + 65536 * ((x >>> 16) &&& 255) +
      16777216 * ((x >>> 24) &&& 255) = x := by
  have h255 : (255 : ℕ) = 2 ^ 8 - 1 := rfl
  rw [h255, Nat.and_pow_two_sub_one_eq_mod, Nat.and_pow_two_sub_one_eq_mod,
    Nat.and_pow_two_sub_one_eq_mod, Nat.and_pow_two_sub_one_eq_mod,
    Nat.shiftRight_eq_div_pow, Nat.shiftRight_eq_div_pow,
    Nat.shiftRight_eq_div_pow]
  norm_num
  omega

/-- Evaluation helper for the float-to-`uint32_t` conversion. -/
theorem floatToU32_of_floor (q : ℚ) (n : ℕ) (h : ⌊q⌋ = (n : ℤ)) :
    floatToU32 q = n := by
  simp [floatToU32, h]

/-- Claim C8, counterexample: the float-to-wire conversion truncates
rather than rounds.  For v = 0.0006, `(v+2)*1000 = 2000.6`; the code's
`uint32_t uintval = 1000*(value+2)` yields 2000, so the first payload
byte is 208 = 2000 mod 256, whereas `round((v+2)*1000) = 2001` would give
209. -/
theorem claim_C8_counterexample :
    floatToU32 (1000 * ((3/5000 : ℚ) + 2)) = 2000 ∧
    round ((1000 : ℚ) * ((3/5000 : ℚ) + 2)) = 2001 ∧
    (serializeFloat ⟨fun _ => 0, 0, 0⟩ true (3/5000)).buf 0 = 208 ∧
    ¬ (serializeFloat ⟨fun _ => 0, 0, 0⟩ true (3/5000)).buf 0
      = (round ((1000 : ℚ) * ((3/5000 : ℚ) + 2))).toNat % 256 := by
  have hu : floatToU32 (1000 * ((3/5000 : ℚ) + 2)) = 2000 :=
    floatToU32_of_floor _ 2000 (by norm_num)
  have hr : round ((1000 : ℚ) * ((3/5000 : ℚ) + 2)) = 2001 := by
    rw [round_eq]
    norm_num
  refine ⟨hu, hr, ?_, ?_⟩
  · simp only [serializeFloat, serialize, addToOutBuf, hu]
    decide
  · rw [hr]
    simp only [serializeFloat, serialize, addToOutBuf, hu]
    decide

set_option maxHeartbeats 1000000 in
/-- Claim C8, amended: the type-122 attitude reply is
`$M>` (36 77 62), the length byte 12, the type byte 122, four
little-endian bytes per angle encoding `trunc((v+2)*1000)` (truncation,
not rounding, by the C++ float-to-`uint32_t` conversion; likewise for the
type-121 reply, which uses the same `serializeFloat`), and a final
checksum byte equal to the XOR of the length, type, and payload bytes. -/
theorem claim_C8_amended (o : OutBuf) (phi theta psi : ℚ)
    (hphi : floatToU32 (1000 * (phi + 2)) < 4294967296)
    (htheta : floatToU32 (1000 * (theta + 2)) < 4294967296)
    (hpsi : floatToU32 (1000 * (psi + 2)) < 4294967296) :
    (msp122Frame o phi theta psi).size = 18 ∧
    (msp122Frame o phi theta psi).buf 0 = 36 ∧
    (msp122Frame o phi theta psi).buf 1 = 77 ∧
    (msp122Frame o phi theta psi).buf 2 = 62 ∧
    (msp122Frame o phi theta psi).buf 3 = 12 ∧
    (msp122Frame o phi theta psi).buf 4 = 122 ∧
    ((msp122Frame o phi theta psi).buf 5 +
      256 * (msp122Frame o phi theta psi).buf 6 +
      65536 * (msp122Frame o phi theta psi).buf 7 +
      16777216 * (msp122Frame o phi theta psi).buf 8
      = floatToU32 (1000 * (phi + 2))) ∧
    ((msp122Frame o phi theta psi).buf 9 +
      256 * (msp122Frame o phi theta psi).buf 10 +
      65536 * (msp122Frame o phi theta psi).buf 11 +
      16777216 * (msp122Frame o phi theta psi).buf 12
      = floatToU32 (1000 * (theta + 2))) ∧
    ((msp122Frame o phi theta psi).buf 13 +
      256 * (msp122Frame o phi theta psi).buf 14 +
      65536 * (msp122Frame o phi theta psi).buf 15 +
      16777216 * (msp122Frame o phi theta psi).buf 16
      = floatToU32 (1000 * (psi + 2))) ∧
    ((msp122Frame o phi theta psi).buf 17 =
      ((List.range 14).map
        (fun i => (msp122Frame o phi theta psi).buf (3 + i))).foldl
          (fun a b => a ^^^ b) 0) := by
  have hbuf : ∀ i, (msp122Frame o phi theta psi).buf i =
      (if i = 17 then
        12 ^^^ 122 ^^^ floatToU32 (1000 * (phi + 2)) &&& 255 ^^^
          floatToU32 (1000 * (phi + 2)) >>> 8 &&& 255 ^^^
          floatToU32 (1000 * (phi + 2)) >>> 16 &&& 255 ^^^
          floatToU32 (1000 * (phi + 2)) >>> 24 &&& 255 ^^^
          floatToU32 (1000 * (theta + 2)) &&& 255 ^^^
          floatToU32 (1000 * (theta + 2)) >>> 8 &&& 255 ^^^
          floatToU32 (1000 * (theta + 2)) >>> 16 &&& 255 ^^^
          floatToU32 (1000 * (theta + 2)) >>> 24 &&& 255 ^^^
          floatToU32 (1000 * (psi + 2)) &&& 255 ^^^
          floatToU32 (1000 * (psi + 2)) >>> 8 &&& 255 ^^^
          floatToU32 (1000 * (psi + 2)) >>> 16 &&& 255 ^^^
          floatToU32 (1000 * (psi + 2)) >>> 24 &&& 255
      else if i = 16 then floatToU32 (1000 * (psi + 2)) >>> 24 &&& 255
      else if i = 15 then floatToU32 (1000 * (psi + 2)) >>> 16 &&& 255
      else if i = 14 then floatToU32 (1000 * (psi + 2)) >>> 8 &&& 255
      else if i = 13 then floatToU32 (1000 * (psi + 2)) &&& 255
      else if i = 12 then floatToU32 (1000 * (theta + 2)) >>> 24 &&& 255
      else if i = 11 then floatToU32 (1000 * (theta + 2)) >>> 16 &&& 255
      else if i = 10 then floatToU32 (1000 * (theta + 2)) >>> 8 &&& 255
      else if i = 9 then floatToU32 (1000 * (theta + 2)) &&& 255
      else if i = 8 then floatToU32 (1000 * (phi + 2)) >>> 24 &&& 255
      else if i = 7 then floatToU32 (1000 * (phi + 2)) >>> 16 &&& 255
      else if i = 6 then floatToU32 (1000 * (phi + 2)) >>> 8 &&& 255
      else if i = 5 then floatToU32 (1000 * (phi + 2)) &&& 255
      else if i = 4 then 122
      else if i = 3 then 12
      else if i = 2 then 62
      else if i = 1 then 77
      else if i = 0 then 36
      else o.buf i) := by
    intro i
    simp only [msp122Frame, completeSend, serializeFloat,
      prepareToSerializeFloats, serialize_ready_buf, serialize_ready_size,
      serialize_ready_checksum, prepareToSerialize_ready_buf,
      prepareToSerialize_ready_size, prepareToSerialize_ready_checksum]
  have hsize : (msp122Frame o phi theta psi).size = 18 := by
    simp only [msp122Frame, completeSend, serializeFloat,
      prepareToSerializeFloats, serialize_ready_size,
      prepareToSerialize_ready_size]
  refine ⟨hsize, ?_, ?_, ?_, ?_, ?_, ?_, ?_, ?_, ?_⟩
  · rw [hbuf 0]; norm_num
  · rw [hbuf 1]; norm_num
  · rw [hbuf 2]; norm_num
  · rw [hbuf 3]; norm_num
  · rw [hbuf 4]; norm_num
  · rw [hbuf 5, hbuf 6, hbuf 7, hbuf 8]
    norm_num
    exact le4_reconstruct _ hphi
  · rw [hbuf 9, hbuf 10, hbuf 11, hbuf 12]
    norm_num
    exact le4_reconstruct _ htheta
  · rw [hbuf 13, hbuf 14, hbuf 15, hbuf 16]
    norm_num
    exact le4_reconstruct _ hpsi
  · simp only [List.range_succ, List.range_zero, List.nil_append,
      List.cons_append, List.map_append, List.map_cons, List.map_nil,
      List.foldl_append, List.foldl_cons, List.foldl_nil]
    simp only [hbuf]
    norm_num

/-- Witness for C8 (amended) at the attitude (3, 0, 1): all three encoded
values are below 2^32, and the reply length is 18 with header `$M>`. -/
theorem claim_C8_witness :
    floatToU32 (1000 * ((3 : ℚ) + 2)) < 4294967296 ∧
    floatToU32 (1000 * ((0 : ℚ) + 2)) < 4294967296 ∧
    floatToU32 (1000 * ((1 : ℚ) + 2)) < 4294967296 ∧
    (msp122Frame ⟨fun _ => 0, 0, 0⟩ 3 0 1).size = 18 ∧
    (msp122Frame ⟨fun _ => 0, 0, 0⟩ 3 0 1).buf 0 = 36 :=
  ⟨by rw [floatToU32_of_floor (1000 * ((3 : ℚ) + 2)) 5000 (by norm_num)]
      norm_num,
    by rw [floatToU32_of_floor (1000 * ((0 : ℚ) + 2)) 2000 (by norm_num)]
       norm_num,
    by rw [floatToU32_of_floor (1000 * ((1 : ℚ) + 2)) 3000 (by norm_num)]
       norm_num,
    (claim_C8_amended ⟨fun _ => 0, 0, 0⟩ 3 0 1
      (by rw [floatToU32_of_floor (1000 * ((3 : ℚ) + 2)) 5000 (by norm_num)]
          norm_num)
      (by rw [floatToU32_of_floor (1000 * ((0 : ℚ) + 2)) 2000 (by norm_num)]
          norm_num)
      (by rw [floatToU32_of_floor (1000 * ((1 : ℚ) + 2)) 3000 (by norm_num)]
          norm_num)).1,
    (claim_C8_amended ⟨fun _ => 0, 0, 0⟩ 3 0 1
      (by rw [floatToU32_of_floor (1000 * ((3 : ℚ) + 2)) 5000 (by norm_num)]
          norm_num)
      (by rw [floatToU32_of_floor (1000 * ((0 : ℚ) + 2)) 2000 (by norm_num)]
          norm_num)
      (by rw [floatToU32_of_floor (1000 * ((1 : ℚ) + 2)) 3000 (by norm_num)]
          norm_num)).2.1⟩

/-- Claim C9, counterexample.  (i) The parser has six control states
(0-5), and a byte that breaks framing does not return it to state 0: after
`$X` the parser sits in state 1.  (ii) A checksum mismatch does not
prevent payload dispatch for type 215: after the frame `$M< 2 215 11 22`
followed by the wrong checksum byte 99 (the running XOR is 200), the
motor-override outputs are still set to the payload bytes (11, 22). -/
theorem claim_C9_counterexample :
    (parserRun initParser [36, 88] 0 0 0 (fun _ => 0)).pstate = 1 ∧
    ¬ (parserRun initParser [36, 88] 0 0 0 (fun _ => 0)).pstate = 0 ∧
    (parserRun initParser [36, 77, 60, 2, 215, 11, 22] 0 0 0
      (fun _ => 0)).crc = 200 ∧
    (parserRun initParser [36, 77, 60, 2, 215, 11, 22] 0 0 0
      (fun _ => 0)).crc ≠ 99 ∧
    (parser_parse (parserRun initParser [36, 77, 60, 2, 215, 11, 22] 0 0 0
        (fun _ => 0)) true 99 0 0 0 (fun _ => 0)).2 = (11, 22) ∧
    (parser_parse (parserRun initParser [36, 77, 60, 2, 215, 11, 22] 0 0 0
        (fun _ => 0)) true 99 0 0 0 (fun _ => 0)).1.pstate = 0 := by
  refine ⟨by decide, by decide, by decide, by decide, ?_, by decide⟩
  decide

/-- The parser state-transition function, extracted (definitionally) from
`parser_parse`. -/
theorem parse_pstate_eq (s : ParserState) (avail : Bool) (byte : ℕ)
    (phi theta psi : ℚ) (rxch : Fin 6 → ℚ) :
    (parser_parse s avail byte phi theta psi rxch).1.pstate =
      (if s.pstate = 0 ∧ byte = 36 then 1
       else if s.pstate = 1 ∧ byte = 77 then 2
       else if s.pstate = 2 ∧ (byte = 60 ∨ byte = 62) then 3
       else if s.pstate = 3 then 4
       else if s.pstate = 4 then 5
       else if s.pstate = 5 ∧ (200 ≤ s.ptype ∧ s.pstate = 5 ∧
           (if s.pstate = 5 then (s.pidx + 1) % 256 else 0)
             ≤ (if s.pstate = 3 then byte else s.psize)) then 5
       else if s.pstate = 5 then 0
       else s.pstate) := rfl

/-- Claim C9, amended: the parser is a six-state DFA (states 0-5, an
invariant of every step).  A byte ending a frame (state 5 with no further
payload expected) always returns the parser to state 0, and when it does
not match the running XOR no reply is produced: the output buffer, its
size and checksum accumulators, and the read index are unchanged.  A byte
that breaks framing in states 0-2 leaves the parser in its current state
(not state 0), states 1 and 2 also leaving the output untouched; but once
a type-215 header has been parsed, the motor-override outputs are copied
from the payload buffer on every call, even for a frame whose checksum
does not match. -/
theorem claim_C9_amended (s : ParserState) (avail : Bool) (byte : ℕ)
    (phi theta psi : ℚ) (rxch : Fin 6 → ℚ) :
    (s.pstate ≤ 5 →
      (parser_parse s avail byte phi theta psi rxch).1.pstate ≤ 5) ∧
    (s.pstate = 5 → ¬ (200 ≤ s.ptype ∧ (s.pidx + 1) % 256 ≤ s.psize) →
      (parser_parse s avail byte phi theta psi rxch).1.pstate = 0) ∧
    (s.pstate = 5 → ¬ (200 ≤ s.ptype ∧ (s.pidx + 1) % 256 ≤ s.psize) →
      s.crc ≠ byte →
      (parser_parse s avail byte phi theta psi rxch).1.out = s.out ∧
        (parser_parse s avail byte phi theta psi rxch).1.bufferIndex
          = s.bufferIndex) ∧
    (s.pstate = 0 → byte ≠ 36 →
      (parser_parse s avail byte phi theta psi rxch).1.pstate = 0) ∧
    (s.pstate = 1 → byte ≠ 77 →
      (parser_parse s avail byte phi theta psi rxch).1.pstate = 1 ∧
        (parser_parse s avail byte phi theta psi rxch).1.out = s.out) ∧
    (s.pstate = 2 → byte ≠ 60 → byte ≠ 62 →
      (parser_parse s avail byte phi theta psi rxch).1.pstate = 2 ∧
        (parser_parse s avail byte phi theta psi rxch).1.out = s.out) ∧
    ((if s.pstate = 4 then byte else s.ptype) = 215 →
      (parser_parse s avail byte phi theta psi rxch).2
        = ((parser_parse s avail byte phi theta psi rxch).1.out.buf 0,
          (parser_parse s avail byte phi theta psi rxch).1.out.buf 1)) := by
  refine ⟨?_, ?_, ?_, ?_, ?_, ?_, ?_⟩
  · intro h5
    rw [parse_pstate_eq]
    split_ifs <;> omega
  · intro h5 hnp
    rw [parse_pstate_eq]
    simp only [h5]
    simp [hnp]
  · intro h5 hnp hcrc
    simp [parser_parse, h5, hnp, hcrc, serializeFloat_not_ready,
      completeSend_not_ready, prepareToSerializeFloats_not_ready,
      serialize_not_ready, addToOutBuf_not_ready]
  · intro h0 hb
    rw [parse_pstate_eq]
    simp [h0, hb]
  · intro h1 hb
    constructor
    · rw [parse_pstate_eq]; simp [h1, hb]
    · simp [parser_parse, h1, hb, serializeFloat_not_ready,
        completeSend_not_ready, prepareToSerializeFloats_not_ready,
        serialize_not_ready, addToOutBuf_not_ready]
  · intro h2 hb60 hb62
    constructor
    · rw [parse_pstate_eq]; simp [h2, hb60, hb62]
    · simp [parser_parse, h2, hb60, hb62, serializeFloat_not_ready,
        completeSend_not_ready, prepareToSerializeFloats_not_ready,
        serialize_not_ready, addToOutBuf_not_ready]
  · intro ht
    simp only [parser_parse, ht]
    norm_num

/-- Witness for C9 (amended): a parser at state 5 expecting the checksum
of a type-122 request (running XOR 122) receives the wrong byte 99: it
returns to state 0 and the output accumulators are untouched. -/
theorem claim_C9_witness :
    (⟨5, 122, 122, 0, 0, ⟨fun _ => 0, 7, 3⟩, 9⟩ : ParserState).pstate = 5 ∧
    ¬ (200 ≤ (122 : ℕ) ∧ (0 + 1) % 256 ≤ (0 : ℕ)) ∧
    (122 : ℕ) ≠ 99 ∧
    (parser_parse ⟨5, 122, 122, 0, 0, ⟨fun _ => 0, 7, 3⟩, 9⟩ true 99 0 0 0
      (fun _ => 0)).1.pstate = 0 ∧
    (parser_parse ⟨5, 122, 122, 0, 0, ⟨fun _ => 0, 7, 3⟩, 9⟩ true 99 0 0 0
      (fun _ => 0)).1.out.size = 7 :=
  ⟨rfl, by decide, by decide,
    (claim_C9_amended ⟨5, 122, 122, 0, 0, ⟨fun _ => 0, 7, 3⟩, 9⟩ true 99 0 0 0
      (fun _ => 0)).2.1 rfl (by decide),
    congrArg OutBuf.size
      ((claim_C9_amended ⟨5, 122, 122, 0, 0, ⟨fun _ => 0, 7, 3⟩, 9⟩ true 99
        0 0 0 (fun _ => 0)).2.2.1 rfl (by decide) (by decide)).1⟩

/-- Witness for C10 (amended) at channel 7 with the integral value
1600. -/
theorem claim_C10_witness :
    (7 : ℕ) < 18 ∧ (4 : ℕ) ≤ 7 ∧
    failsafeChannelMode 7 = 1 ∧
    failsafeChannelMode 7 ≠ 2 ∧
    getFailValue (fun _ => (1600 : ℚ)) 7 = 1600 :=
  ⟨by decide, by decide,
    ((claim_C10_amended (fun _ => (1600 : ℚ)) 7 (by decide)).2.1
      (by decide)).1,
    (claim_C10_amended (fun _ => (1600 : ℚ)) 7 (by decide)).2.2.1,
    (claim_C10_amended (fun _ => (1600 : ℚ)) 7 (by decide)).2.2.2 1600
      (by decide) (by norm_num)⟩

/-- C6: during initial training (`filterTrained = false`, empty
accumulator) the smoothing filter accumulates exactly 50 frame-interval
samples - the first 49 calls return false, the 50th returns true - and
with a constant interval `T ∈ [950, 65500]` µs the completed training
sets `averageFrameTimeUs` to the sum minus the single minimum and single
maximum sample divided by `count - 2 = 48`, which equals `T` exactly,
and resets the accumulator. -/
theorem claim_C6 (sf : SmoothingFilter) (T : ℕ)
    (hsum : sf.trainingSum = 0) (hcount : sf.trainingCount = 0)
    (hmin : sf.trainingMin = 65535) (hmax : sf.trainingMax = 0)
    (htrained : sf.filterTrained = false)
    (hlo : 950 ≤ T) (hhi : T ≤ 65500) :
    (∀ n, n < 49 → (rcSmoothingAccumulateSample (accumulateN sf T n) T).2
      = false) ∧
    (rcSmoothingAccumulateSample (accumulateN sf T 49) T).2 = true ∧
    (accumulateN sf T 50).averageFrameTimeUs = T ∧
    (accumulateN sf T 50).trainingSum = 0 ∧
    (accumulateN sf T 50).trainingCount = 0 ∧
    (accumulateN sf T 50).trainingMin = 65535 ∧
    (accumulateN sf T 50).trainingMax = 0 := by
  have hchar : ∀ n, n ≤ 49 →
      (accumulateN sf T n).trainingSum = (n : ℝ) * (T : ℝ) ∧
      (accumulateN sf T n).trainingCount = n ∧
      (accumulateN sf T n).trainingMax = (if n = 0 then 0 else T) ∧
      (accumulateN sf T n).trainingMin = (if n = 0 then 65535 else T) ∧
      (accumulateN sf T n).filterTrained = false := by
    intro n
    induction n with
    | zero =>
        intro _
        simp [accumulateN, hsum, hcount, hmin, hmax, htrained]
    | succ m ih =>
        intro hm
        obtain ⟨i1, i2, i3, i4, i5⟩ := ih (by omega)
        have hlim : ¬ (50 ≤ m + 1) := by omega
        simp only [accumulateN, rcSmoothingAccumulateSample, i1, i2, i3, i4,
          i5, Bool.false_eq_true, if_false, hlim]
        refine ⟨by push_cast; ring, by trivial, ?_, ?_, by trivial⟩
        · rcases Nat.eq_zero_or_pos m with hm0 | hm0
          · subst hm0
            simp [Nat.zero_max]
          · have hm0' : ¬ m = 0 := by omega
            simp [hm0', Nat.succ_ne_zero, max_self]
        · rcases Nat.eq_zero_or_pos m with hm0 | hm0
          · subst hm0
            simp
            omega
          · have hm0' : ¬ m = 0 := by omega
            simp [hm0', Nat.succ_ne_zero, min_self]
  obtain ⟨i1, i2, i3, i4, i5⟩ := hchar 49 (by omega)
  refine ⟨?_, ?_, ?_, ?_, ?_, ?_, ?_⟩
  · intro n hn
    obtain ⟨j1, j2, j3, j4, j5⟩ := hchar n (by omega)
    have hlim : ¬ (50 ≤ n + 1) := by omega
    simp [rcSmoothingAccumulateSample, j2, j5, hlim]
  · simp [rcSmoothingAccumulateSample, i2, i5]
  · rw [show accumulateN sf T 50
        = (rcSmoothingAccumulateSample (accumulateN sf T 49) T).1 from rfl]
    simp only [rcSmoothingAccumulateSample, i1, i2, i3, i4, i5,
      Bool.false_eq_true, if_false]
    norm_num
    have heq : ((49 : ℝ) * T - T) / 48 = ((T : ℕ) : ℝ) := by
      field_simp
      ring
    rw [heq, round_natCast]
    simp [u32ofInt]
    omega
  · rw [show accumulateN sf T 50
        = (rcSmoothingAccumulateSample (accumulateN sf T 49) T).1 from rfl]
    simp [rcSmoothingAccumulateSample, i2, i5]
  · rw [show accumulateN sf T 50
        = (rcSmoothingAccumulateSample (accumulateN sf T 49) T).1 from rfl]
    simp [rcSmoothingAccumulateSample, i2, i5]
  · rw [show accumulateN sf T 50
        = (rcSmoothingAccumulateSample (accumulateN sf T 49) T).1 from rfl]
    simp [rcSmoothingAccumulateSample, i2, i5]
  · rw [show accumulateN sf T 50
        = (rcSmoothingAccumulateSample (accumulateN sf T 49) T).1 from rfl]
    simp [rcSmoothingAccumulateSample, i2, i5]

theorem calcAutoSmoothingCutoff_le (avg s : ℕ) (h : 950 ≤ avg) :
    calcAutoSmoothingCutoff avg s ≤ 1579 := by
  unfold calcAutoSmoothingCutoff
  rw [if_pos (by omega : 0 < avg)]
  have ha : (950 : ℝ) ≤ (avg : ℝ) := by exact_mod_cast h
  have h1 : 1 / ((avg : ℝ) * 1e-6) ≤ 1 / ((950 : ℝ) * 1e-6) := by
    apply one_div_le_one_div_of_le
    · norm_num
    · nlinarith
  have h2 : (1.5 : ℝ) / (1 + (s : ℝ) / 10) ≤ 1.5 :=
    div_le_self (by norm_num) (le_add_of_nonneg_right (by positivity))
  have hx : 1 / ((avg : ℝ) * 1e-6) * (1.5 / (1 + (s : ℝ) / 10))
      ≤ 1578.95 := by
    calc 1 / ((avg : ℝ) * 1e-6) * (1.5 / (1 + (s : ℝ) / 10))
        ≤ (1 / ((950 : ℝ) * 1e-6)) * 1.5 :=
          mul_le_mul h1 h2 (by positivity) (by positivity)
      _ ≤ 1578.95 := by norm_num
  rw [round_eq]
  calc ⌊1 / ((avg : ℝ) * 1e-6) * (1.5 / (1 + (s : ℝ) / 10)) + 1 / 2⌋
      ≤ ⌊(1578.95 : ℝ) + 1 / 2⌋ := Int.floor_le_floor (by linarith)
    _ ≤ 1579 := by norm_num

/-- C7: with both cutoff settings auto (0),
`setSmoothingFilterCutoffs` stores `max(15, calcAutoSmoothingCutoff)` in
the setpoint and throttle cutoff-frequency fields, so both are at least
15 in every configuration with an average frame time reachable from
training (0, or in `[950, 65500]`); for `averageFrameTimeUs = 0` the
cutoff is exactly 15, and for a positive average the auto cutoff is
`round((1e6/avg) * 1.5/(1 + s/10))` with `s` the auto-smoothness
factor. -/
theorem claim_C7 (anglePidData : AnglePid) (sf : SmoothingFilter)
    (hset : sf.setpointCutoffSetting = 0)
    (hthr : sf.throttleCutoffSetting = 0)
    (havg : sf.averageFrameTimeUs = 0 ∨
      (950 ≤ sf.averageFrameTimeUs ∧ sf.averageFrameTimeUs ≤ 65500)) :
    ((setSmoothingFilterCutoffs anglePidData sf).2.setpointCutoffFrequency
      = (max 15 (calcAutoSmoothingCutoff sf.averageFrameTimeUs
          sf.autoSmoothnessFactorSetpoint)).toNat) ∧
    ((setSmoothingFilterCutoffs anglePidData sf).2.throttleCutoffFrequency
      = (max 15 (calcAutoSmoothingCutoff sf.averageFrameTimeUs
          sf.autoSmoothnessFactorThrottle)).toNat) ∧
    15 ≤ (setSmoothingFilterCutoffs anglePidData
      sf).2.setpointCutoffFrequency ∧
    15 ≤ (setSmoothingFilterCutoffs anglePidData
      sf).2.throttleCutoffFrequency ∧
    (sf.averageFrameTimeUs = 0 →
      (setSmoothingFilterCutoffs anglePidData sf).2.setpointCutoffFrequency
          = 15 ∧
        (setSmoothingFilterCutoffs anglePidData sf).2.throttleCutoffFrequency
          = 15) ∧
    (∀ avg s : ℕ, 0 < avg →
      calcAutoSmoothingCutoff avg s
        = round ((1000000 / (avg : ℝ)) * (1.5 / (1 + (s : ℝ) / 10)))) := by
  have hle : ∀ s : ℕ, max 15 (calcAutoSmoothingCutoff sf.averageFrameTimeUs s)
      ≤ 1579 := by
    intro s
    rcases havg with h0 | ⟨h1, h2⟩
    · rw [h0]
      unfold calcAutoSmoothingCutoff
      norm_num
    · exact max_le (by norm_num) (calcAutoSmoothingCutoff_le _ _ h1)
  have hmod : ∀ s : ℕ,
      u16ofInt (max 15 (calcAutoSmoothingCutoff sf.averageFrameTimeUs s))
        = (max 15 (calcAutoSmoothingCutoff sf.averageFrameTimeUs s)).toNat := by
    intro s
    unfold u16ofInt
    apply Nat.mod_eq_of_lt
    have h1 : (max 15 (calcAutoSmoothingCutoff sf.averageFrameTimeUs
        s)).toNat ≤ (1579 : ℤ).toNat := Int.toNat_le_toNat (hle s)
    omega
  have e1 : (setSmoothingFilterCutoffs anglePidData
      sf).2.setpointCutoffFrequency
      = u16ofInt (max 15 (calcAutoSmoothingCutoff sf.averageFrameTimeUs
          sf.autoSmoothnessFactorSetpoint)) := by
    simp only [setSmoothingFilterCutoffs, hset, hthr]
    split_ifs <;> simp_all
  have e2 : (setSmoothingFilterCutoffs anglePidData
      sf).2.throttleCutoffFrequency
      = u16ofInt (max 15 (calcAutoSmoothingCutoff sf.averageFrameTimeUs
          sf.autoSmoothnessFactorThrottle)) := by
    simp only [setSmoothingFilterCutoffs, hset, hthr]
    split_ifs <;> simp_all
  have h15 : ∀ s : ℕ, 15 ≤ (max 15 (calcAutoSmoothingCutoff
      sf.averageFrameTimeUs s)).toNat := by
    intro s
    have := Int.toNat_le_toNat (le_max_left 15
      (calcAutoSmoothingCutoff sf.averageFrameTimeUs s))
    omega
  refine ⟨by rw [e1, hmod], by rw [e2, hmod], ?_, ?_, ?_, ?_⟩
  · rw [e1, hmod]; exact h15 _
  · rw [e2, hmod]; exact h15 _
  · intro h0
    have hcalc : ∀ s : ℕ, calcAutoSmoothingCutoff sf.averageFrameTimeUs s
        = 0 := by
      intro s
      rw [h0]
      unfold calcAutoSmoothingCutoff
      norm_num
    constructor
    · rw [e1, hmod, hcalc]; rfl
    · rw [e2, hmod, hcalc]; rfl
  · intro avg s h
    unfold calcAutoSmoothingCutoff
    rw [if_pos h]
    congr 1
    have ha : (avg : ℝ) ≠ 0 := by positivity
    have hsci : (1e-6 : ℝ) = 1 / 1000000 := by norm_num
    rw [hsci]
    field_simp

theorem pt3FilterGain_mem (f_cut dT : ℝ) (hf : 0 ≤ f_cut) (hdT : 0 < dT) :
    0 ≤ pt3FilterGain f_cut dT ∧ pt3FilterGain f_cut dT ≤ 1 := by
  simp only [pt3FilterGain]
  have hocc : 0 ≤ 1 / Real.sqrt ((2 : ℝ) ^ ((1 : ℝ) / 3) - 1) := by positivity
  have hden : 0 ≤ 2 * (1 / Real.sqrt ((2 : ℝ) ^ ((1 : ℝ) / 3) - 1)) *
      Real.pi * f_cut := by
    have := Real.pi_pos
    positivity
  have hRC : 0 ≤ 1 / (2 * (1 / Real.sqrt ((2 : ℝ) ^ ((1 : ℝ) / 3) - 1)) *
      Real.pi * f_cut) := by positivity
  constructor
  · apply div_nonneg (le_of_lt hdT)
    linarith
  · rw [div_le_one (by linarith)]
    linarith

theorem mix_bound (a x k : ℝ) (ha : |a| ≤ 1998) (hx : |x| ≤ 1998)
    (h0 : 0 ≤ k) (h1 : k ≤ 1) : |a + k * (x - a)| ≤ 1998 := by
  rw [abs_le] at *
  constructor <;> nlinarith [ha.1, ha.2, hx.1, hx.2]

theorem pt3FilterApply_inv (f : pt3Filter) (x : ℝ) (hf : filterInv f)
    (hx : |x| ≤ 1998) :
    filterInv (pt3FilterApply f x).1 ∧ |(pt3FilterApply f x).2| ≤ 1998 := by
  obtain ⟨h0, h1, h2, hk0, hk1⟩ := hf
  have hs1 : |f.state1 + f.k * (x - f.state1)| ≤ 1998 :=
    mix_bound _ _ _ h1 hx hk0 hk1
  have hs2 : |f.state2 + f.k * (f.state1 + f.k * (x - f.state1) -
      f.state2)| ≤ 1998 := mix_bound _ _ _ h2 hs1 hk0 hk1
  have hs0 : |f.state + f.k * (f.state2 + f.k * (f.state1 + f.k *
      (x - f.state1) - f.state2) - f.state)| ≤ 1998 :=
    mix_bound _ _ _ h0 hs2 hk0 hk1
  exact ⟨⟨hs0, hs1, hs2, hk0, hk1⟩, hs0⟩

theorem smoothingFilterInit_inv (sf : SmoothingFilter) (f : pt3Filter)
    (freq dT : ℝ) (hfreq : 0 ≤ freq) (hdT : 0 < dT) (hf : filterInv f) :
    filterInv (smoothingFilterInit sf f freq dT) := by
  obtain ⟨h0, h1, h2, hk0, hk1⟩ := hf
  obtain ⟨g0, g1⟩ := pt3FilterGain_mem freq dT hfreq hdT
  unfold smoothingFilterInit
  split_ifs
  · exact ⟨by simp [pt3FilterInit], by simp [pt3FilterInit],
      by simp [pt3FilterInit], g0, g1⟩
  · exact ⟨h0, h1, h2, g0, g1⟩

theorem smoothingFilterInitRollPitchYaw_inv (sf : SmoothingFilter)
    (f : pt3Filter) (dT : ℝ) (hdT : 0 < dT) (hf : filterInv f) :
    filterInv (smoothingFilterInitRollPitchYaw sf f dT) :=
  smoothingFilterInit_inv sf f _ dT (Nat.cast_nonneg _) hdT hf

theorem setSmoothingFilterCutoffs_filterInv (apid : AnglePid)
    (sf : SmoothingFilter)
    (hR : filterInv sf.filterRoll) (hP : filterInv sf.filterPitch)
    (hY : filterInv sf.filterYaw) :
    filterInv (setSmoothingFilterCutoffs apid sf).2.filterRoll ∧
    filterInv (setSmoothingFilterCutoffs apid sf).2.filterPitch ∧
    filterInv (setSmoothingFilterCutoffs apid sf).2.filterYaw := by
  have hdT : (0 : ℝ) < Clock_PERIOD * 1e-6 := by norm_num [Clock_PERIOD]
  simp only [setSmoothingFilterCutoffs]
  split_ifs <;>
    refine ⟨?_, ?_, ?_⟩ <;>
    first
      | exact hR
      | exact hP
      | exact hY
      | (apply smoothingFilterInitRollPitchYaw_inv _ _ _ hdT
          (by first | exact hR | exact hP | exact hY))

theorem constrain_f_mem (amt low high : ℝ) (h : low ≤ high) :
    low ≤ constrain_f amt low high ∧ constrain_f amt low high ≤ high := by
  unfold constrain_f
  split_ifs <;> constructor <;> linarith

theorem getRawSetpoint_bound (command divider : ℝ) :
    |getRawSetpoint command divider| ≤ 1998 := by
  have h := constrain_f_mem
    (applyRates (command / divider) |command / divider|)
    (-RATE_LIMIT) RATE_LIMIT (by norm_num [RATE_LIMIT])
  rw [abs_le]
  constructor
  · simpa [getRawSetpoint, RATE_LIMIT] using h.1
  · simpa [getRawSetpoint, RATE_LIMIT] using h.2

theorem smoothingFilterApply_inv (sf : SmoothingFilter) (f : pt3Filter)
    (x : ℝ) (hf : filterInv f) (hx : |x| ≤ 1998) :
    filterInv (smoothingFilterApply sf f x).1 ∧
      |(smoothingFilterApply sf f x).2| ≤ 1998 := by
  unfold smoothingFilterApply
  split_ifs
  · exact pt3FilterApply_inv f x hf hx
  · exact ⟨hf, hx⟩

theorem accum_filters (sf : SmoothingFilter) (t : ℕ) :
    (rcSmoothingAccumulateSample sf t).1.filterRoll = sf.filterRoll ∧
    (rcSmoothingAccumulateSample sf t).1.filterPitch = sf.filterPitch ∧
    (rcSmoothingAccumulateSample sf t).1.filterYaw = sf.filterYaw := by
  simp only [rcSmoothingAccumulateSample]
  split_ifs <;> exact ⟨rfl, rfl, rfl⟩

theorem accum_keep_filters (sf : SmoothingFilter) (r : ℕ)
    (hR : filterInv sf.filterRoll) (hP : filterInv sf.filterPitch)
    (hY : filterInv sf.filterYaw) :
    filterInv (rcSmoothingAccumulateSample sf r).1.filterRoll ∧
    filterInv (rcSmoothingAccumulateSample sf r).1.filterPitch ∧
    filterInv (rcSmoothingAccumulateSample sf r).1.filterYaw := by
  obtain ⟨aR, aP, aY⟩ := accum_filters sf r
  exact ⟨aR ▸ hR, aP ▸ hP, aY ▸ hY⟩

theorem cutoffs_accum_filters (apid : AnglePid) (sf : SmoothingFilter)
    (r : ℕ) (hR : filterInv sf.filterRoll) (hP : filterInv sf.filterPitch)
    (hY : filterInv sf.filterYaw) :
    filterInv (setSmoothingFilterCutoffs apid
      (rcSmoothingAccumulateSample sf r).1).2.filterRoll ∧
    filterInv (setSmoothingFilterCutoffs apid
      (rcSmoothingAccumulateSample sf r).1).2.filterPitch ∧
    filterInv (setSmoothingFilterCutoffs apid
      (rcSmoothingAccumulateSample sf r).1).2.filterYaw := by
  obtain ⟨cR, cP, cY⟩ := accum_keep_filters sf r hR hP hY
  exact setSmoothingFilterCutoffs_filterInv apid _ cR cP cY

theorem psfTraining_filters (s : ReceiverSm) (t : ℕ) (apid : AnglePid)
    (hR : filterInv s.smoothingFilter.filterRoll)
    (hP : filterInv s.smoothingFilter.filterPitch)
    (hY : filterInv s.smoothingFilter.filterYaw) :
    (filterInv (psfTraining s t apid).1.smoothingFilter.filterRoll ∧
     filterInv (psfTraining s t apid).1.smoothingFilter.filterPitch ∧
     filterInv (psfTraining s t apid).1.smoothingFilter.filterYaw) ∧
    (psfTraining s t apid).1.dataToSmooth = s.dataToSmooth ∧
    (psfTraining s t apid).1.commands = s.commands := by
  simp only [psfTraining]
  split_ifs
  · omega
  · omega
  · omega
  · omega
  · omega
  · omega
  · exact ⟨⟨hR, hP, hY⟩, rfl, rfl⟩
  · omega
  · omega
  · omega
  · exact ⟨⟨hR, hP, hY⟩, rfl, rfl⟩
  · contradiction
  · contradiction
  · exact ⟨⟨hR, hP, hY⟩, rfl, rfl⟩
  · exact ⟨cutoffs_accum_filters apid s.smoothingFilter s.refreshPeriod
      hR hP hY, rfl, rfl⟩
  · exact ⟨accum_keep_filters s.smoothingFilter s.refreshPeriod hR hP hY,
      rfl, rfl⟩
  · exact absurd rfl (by assumption)
  · exact ⟨cutoffs_accum_filters apid s.smoothingFilter s.refreshPeriod
      hR hP hY, rfl, rfl⟩
  · exact ⟨accum_keep_filters s.smoothingFilter s.refreshPeriod hR hP hY,
      rfl, rfl⟩
  · exact absurd rfl (by assumption)
  · exact ⟨⟨hR, hP, hY⟩, rfl, rfl⟩
  · exact ⟨⟨hR, hP, hY⟩, rfl, rfl⟩
  · exact ⟨⟨hR, hP, hY⟩, rfl, rfl⟩

theorem psfInit_filters (s : ReceiverSm) (apid : AnglePid)
    (hR : filterInv s.smoothingFilter.filterRoll)
    (hP : filterInv s.smoothingFilter.filterPitch)
    (hY : filterInv s.smoothingFilter.filterYaw) :
    (filterInv (psfInit s apid).1.smoothingFilter.filterRoll ∧
     filterInv (psfInit s apid).1.smoothingFilter.filterPitch ∧
     filterInv (psfInit s apid).1.smoothingFilter.filterYaw) ∧
    (psfInit s apid).1.dataToSmooth = s.dataToSmooth ∧
    (psfInit s apid).1.commands = s.commands := by
  simp only [psfInit]
  split_ifs <;>
    first
      | exact ⟨⟨hR, hP, hY⟩, rfl, rfl⟩
      | exact ⟨setSmoothingFilterCutoffs_filterInv apid _ hR hP hY,
          rfl, rfl⟩

theorem psfData_inv (s : ReceiverSm) (raw : Fin 3 → ℝ)
    (hraw : ∀ i : Fin 3, |raw i| ≤ 1998)
    (hR : filterInv s.smoothingFilter.filterRoll)
    (hP : filterInv s.smoothingFilter.filterPitch)
    (hY : filterInv s.smoothingFilter.filterYaw)
    (hdR : |s.dataToSmooth.roll| ≤ 1998)
    (hdP : |s.dataToSmooth.pitch| ≤ 1998)
    (hdY : |s.dataToSmooth.yaw| ≤ 1998) :
    (filterInv (psfData s raw).smoothingFilter.filterRoll ∧
     filterInv (psfData s raw).smoothingFilter.filterPitch ∧
     filterInv (psfData s raw).smoothingFilter.filterYaw) ∧
    |(psfData s raw).dataToSmooth.roll| ≤ 1998 ∧
    |(psfData s raw).dataToSmooth.pitch| ≤ 1998 ∧
    |(psfData s raw).dataToSmooth.yaw| ≤ 1998 := by
  unfold psfData
  split_ifs
  · exact ⟨⟨hR, hP, hY⟩, hraw 0, hraw 1, hraw 2⟩
  · exact ⟨⟨hR, hP, hY⟩, hdR, hdP, hdY⟩

theorem psfApply_inv (s4 : ReceiverSm)
    (hR : filterInv s4.smoothingFilter.filterRoll)
    (hP : filterInv s4.smoothingFilter.filterPitch)
    (hY : filterInv s4.smoothingFilter.filterYaw)
    (hdR : |s4.dataToSmooth.roll| ≤ 1998)
    (hdP : |s4.dataToSmooth.pitch| ≤ 1998)
    (hdY : |s4.dataToSmooth.yaw| ≤ 1998) :
    smoothInv (psfApply s4).1 ∧
      ∀ i : Fin 3, |(psfApply s4).2 i| ≤ 1998 := by
  obtain ⟨fR, oR⟩ := smoothingFilterApply_inv s4.smoothingFilter
    s4.smoothingFilter.filterRoll s4.dataToSmooth.roll hR hdR
  obtain ⟨fP, oP⟩ := smoothingFilterApply_inv s4.smoothingFilter
    s4.smoothingFilter.filterPitch s4.dataToSmooth.pitch hP hdP
  obtain ⟨fY, oY⟩ := smoothingFilterApply_inv s4.smoothingFilter
    s4.smoothingFilter.filterYaw s4.dataToSmooth.yaw hY hdY
  refine ⟨⟨fR, fP, fY, hdR, hdP, hdY⟩, ?_⟩
  intro i
  fin_cases i
  · exact oR
  · exact oP
  · exact oY

theorem processSmoothingFilter_inv (s : ReceiverSm) (apid : AnglePid)
    (t : ℕ) (raw : Fin 3 → ℝ) (hraw : ∀ i : Fin 3, |raw i| ≤ 1998)
    (hinv : smoothInv s) :
    smoothInv (processSmoothingFilter s apid t raw).1 ∧
      ∀ i : Fin 3, |(processSmoothingFilter s apid t raw).2.2 i| ≤ 1998 := by
  obtain ⟨hR, hP, hY, hdR, hdP, hdY⟩ := hinv
  set p1 : ReceiverSm × AnglePid :=
    if s.setupDone = false then psfInit s apid else (s, apid) with hp1
  set s2 : ReceiverSm := { p1.1 with setupDone := true } with hs2
  set p2 : ReceiverSm × AnglePid :=
    if s2.gotNewData && s2.calculatedCutoffs then psfTraining s2 t p1.2
    else (s2, p1.2) with hp2
  have h1 : (filterInv p1.1.smoothingFilter.filterRoll ∧
      filterInv p1.1.smoothingFilter.filterPitch ∧
      filterInv p1.1.smoothingFilter.filterYaw) ∧
      p1.1.dataToSmooth = s.dataToSmooth := by
    rw [hp1]
    split_ifs
    · obtain ⟨hf, hd, _⟩ := psfInit_filters s apid hR hP hY
      exact ⟨hf, hd⟩
    · exact ⟨⟨hR, hP, hY⟩, rfl⟩
  obtain ⟨⟨aR, aP, aY⟩, ad⟩ := h1
  have h2 : (filterInv p2.1.smoothingFilter.filterRoll ∧
      filterInv p2.1.smoothingFilter.filterPitch ∧
      filterInv p2.1.smoothingFilter.filterYaw) ∧
      p2.1.dataToSmooth = s.dataToSmooth := by
    rw [hp2]
    split_ifs
    · obtain ⟨⟨bR, bP, bY⟩, bd, _⟩ := psfTraining_filters s2 t p1.2 aR aP aY
      exact ⟨⟨bR, bP, bY⟩, bd.trans ad⟩
    · exact ⟨⟨aR, aP, aY⟩, ad⟩
  obtain ⟨⟨cR, cP, cY⟩, cd⟩ := h2
  obtain ⟨⟨dR, dP, dY⟩, ddR, ddP, ddY⟩ := psfData_inv p2.1 raw hraw cR cP cY
    (by rw [cd]; exact hdR) (by rw [cd]; exact hdP) (by rw [cd]; exact hdY)
  have hgoal : processSmoothingFilter s apid t raw =
      ((psfApply (psfData p2.1 raw)).1, p2.2,
        (psfApply (psfData p2.1 raw)).2) := rfl
  rw [hgoal]
  exact psfApply_inv (psfData p2.1 raw) dR dP dY ddR ddP ddY

/-- C5: every demands record produced by `Receiver::getDemands` satisfies
`throttle ∈ [0, 1]` and `roll, pitch, yaw ∈ [-1998, 1998]`, for every
receiver state satisfying the smoothing invariant (filter states within
±1998 with gains in `[0, 1]`, captured data within ±1998) - which holds at
boot and, as the last conjunct shows, is preserved by `getDemands` itself,
so it holds along every input history. -/
theorem claim_C5 (s : ReceiverSm) (anglePidData : AnglePid) (t : ℕ)
    (hinv : smoothInv s) :
    (0 ≤ (getDemands s anglePidData t).2.2.throttle ∧
      (getDemands s anglePidData t).2.2.throttle ≤ 1) ∧
    |(getDemands s anglePidData t).2.2.roll| ≤ 1998 ∧
    |(getDemands s anglePidData t).2.2.pitch| ≤ 1998 ∧
    |(getDemands s anglePidData t).2.2.yaw| ≤ 1998 ∧
    smoothInv (getDemands s anglePidData t).1 := by
  set raw : Fin 3 → ℝ :=
    if s.gotNewData then
      ![getRawSetpoint (s.command 1) COMMAND_DIVIDER,
        getRawSetpoint (s.command 2) COMMAND_DIVIDER,
        getRawSetpoint (s.command 3) YAW_COMMAND_DIVIDER]
    else ![0, 0, 0] with hraw0
  set s0 : ReceiverSm :=
    if s.gotNewData then { s with previousFrameTimeUs := 0 } else s with hs0
  have hraw : ∀ i : Fin 3, |raw i| ≤ 1998 := by
    rw [hraw0]
    split_ifs
    · intro i
      fin_cases i
      · exact getRawSetpoint_bound _ _
      · exact getRawSetpoint_bound _ _
      · exact getRawSetpoint_bound _ _
    · intro i
      fin_cases i <;> norm_num
  have hinv0 : smoothInv s0 := by
    rw [hs0]
    split_ifs
    · exact hinv
    · exact hinv
  obtain ⟨hsm, hout⟩ :=
    processSmoothingFilter_inv s0 anglePidData t raw hraw hinv0
  have hgoal : getDemands s anglePidData t =
      ({ (processSmoothingFilter s0 anglePidData t raw).1 with
          gotNewData := false },
       (processSmoothingFilter s0 anglePidData t raw).2.1,
       { throttle := constrain_f
           (((processSmoothingFilter s0 anglePidData t raw).1.commands.throttle
             - PWM_MIN) / (PWM_MAX - PWM_MIN)) 0 1
         roll := (processSmoothingFilter s0 anglePidData t raw).2.2 0
         pitch := (processSmoothingFilter s0 anglePidData t raw).2.2 1
         yaw := (processSmoothingFilter s0 anglePidData t raw).2.2 2 }) := rfl
  rw [hgoal]
  exact ⟨constrain_f_mem _ 0 1 (by norm_num), hout 0, hout 1, hout 2, hsm⟩

theorem claim_C5_witness :
    smoothInv receiverZero ∧
    ((0 ≤ (getDemands receiverZero anglePidZero 0).2.2.throttle ∧
      (getDemands receiverZero anglePidZero 0).2.2.throttle ≤ 1) ∧
    |(getDemands receiverZero anglePidZero 0).2.2.roll| ≤ 1998 ∧
    |(getDemands receiverZero anglePidZero 0).2.2.pitch| ≤ 1998 ∧
    |(getDemands receiverZero anglePidZero 0).2.2.yaw| ≤ 1998 ∧
    smoothInv (getDemands receiverZero anglePidZero 0).1) := by
  have hinv : smoothInv receiverZero := by
    refine ⟨?_, ?_, ?_, ?_, ?_, ?_⟩ <;>
      norm_num [receiverZero, smoothingFilterZero, filterZero, filterInv]
  exact ⟨hinv, claim_C5 receiverZero anglePidZero 0 hinv⟩

theorem claim_C6_witness :
    (∀ n, n < 49 →
      (rcSmoothingAccumulateSample
        (accumulateN (rcSmoothingResetAccumulation smoothingFilterZero)
          4000 n) 4000).2 = false) ∧
    (rcSmoothingAccumulateSample
      (accumulateN (rcSmoothingResetAccumulation smoothingFilterZero)
        4000 49) 4000).2 = true ∧
    (accumulateN (rcSmoothingResetAccumulation smoothingFilterZero)
      4000 50).averageFrameTimeUs = 4000 ∧
    (accumulateN (rcSmoothingResetAccumulation smoothingFilterZero)
      4000 50).trainingSum = 0 ∧
    (accumulateN (rcSmoothingResetAccumulation smoothingFilterZero)
      4000 50).trainingCount = 0 ∧
    (accumulateN (rcSmoothingResetAccumulation smoothingFilterZero)
      4000 50).trainingMin = 65535 ∧
    (accumulateN (rcSmoothingResetAccumulation smoothingFilterZero)
      4000 50).trainingMax = 0 :=
  claim_C6 (rcSmoothingResetAccumulation smoothingFilterZero) 4000
    rfl rfl rfl rfl rfl (by norm_num) (by norm_num)

theorem claim_C7_witness :
    ((setSmoothingFilterCutoffs anglePidZero
        smoothingFilterZero).2.setpointCutoffFrequency
      = (max 15 (calcAutoSmoothingCutoff
          smoothingFilterZero.averageFrameTimeUs
          smoothingFilterZero.autoSmoothnessFactorSetpoint)).toNat) ∧
    ((setSmoothingFilterCutoffs anglePidZero
        smoothingFilterZero).2.throttleCutoffFrequency
      = (max 15 (calcAutoSmoothingCutoff
          smoothingFilterZero.averageFrameTimeUs
          smoothingFilterZero.autoSmoothnessFactorThrottle)).toNat) ∧
    15 ≤ (setSmoothingFilterCutoffs anglePidZero
      smoothingFilterZero).2.setpointCutoffFrequency ∧
    15 ≤ (setSmoothingFilterCutoffs anglePidZero
      smoothingFilterZero).2.throttleCutoffFrequency ∧
    (smoothingFilterZero.averageFrameTimeUs = 0 →
      (setSmoothingFilterCutoffs anglePidZero
          smoothingFilterZero).2.setpointCutoffFrequency = 15 ∧
        (setSmoothingFilterCutoffs anglePidZero
          smoothingFilterZero).2.throttleCutoffFrequency = 15) ∧
    (∀ avg s : ℕ, 0 < avg →
      calcAutoSmoothingCutoff avg s
        = round ((1000000 / (avg : ℝ)) * (1.5 / (1 + (s : ℝ) / 10)))) :=
  claim_C7 anglePidZero smoothingFilterZero rfl rfl (Or.inl rfl)

end HF
